import Mathlib

/-!
# Session lifecycle controller of `dht-client.cpp`

A shallow embedding of the client-side DHT driver: the network-size estimator
(`dht_client::estimate_node_count`), the bootstrap selector
(`dht_client::initialize_session_from_bootstrap_nodes`), `start`, `stop`, the control
loop (`dht_client::main_loop`) and `main`.

Conventions of the embedding.

* A C++ `int` is a Lean `Int` in the range `[-2^31, 2^31)`; every arithmetic operation
  on `int` is followed by `wrap32`, the two's-complement reduction modulo `2^32`.
* A `uint16_t` is an `Int` reduced by `wrap_u16`.
* A `steady_clock::time_point` is an `Int` counting clock periods; `clock_period` of them
  make one second and `duration_cast<seconds>` is truncating division.
* The external world (session constructor, clock, `session::run`, the `m_running` flag as the
  loop reads it) is passed in explicitly; output is an explicit list of events.
-/

namespace DhtClient

/-! ## Machine integers -/

/-- Two's-complement value of an integer stored in a 32-bit `int`. -/
def wrap32 (x : Int) : Int := (x + 2147483648) % 4294967296 - 2147483648

/-- Value of an integer stored in a `uint16_t`. -/
def wrap_u16 (x : Int) : Int := x % 65536

/-- Largest value of `int`. -/
def INT_MAX : Int := 2147483647

/-! ## Network-size estimator (`dht_client::estimate_node_count`) -/

/-- Embedding of `int estimate_node_count(int elapsed_seconds, int query_count)`. -/
def estimate_node_count (elapsed_seconds query_count : Int) : Int :=
  let base_count : Int :=
    if elapsed_seconds < 2 then 0
    else if elapsed_seconds < 5 then
      wrap32 (4 + wrap32 (wrap32 (elapsed_seconds - 2) * 5))
    else if elapsed_seconds < 20 then
      wrap32 (15 + wrap32 (wrap32 (elapsed_seconds - 5) * 3))
    else
      wrap32 (60 + wrap32 (wrap32 (elapsed_seconds - 20) * 2))
  let query_bonus : Int := min (wrap32 (query_count * 2)) 40
  min (wrap32 (base_count + query_bonus)) 150

/-- The base curve as the specification words it (section 4.2), over the integers. -/
def spec_base (elapsed : Int) : Int :=
  if elapsed < 2 then 0
  else if elapsed < 5 then 4 + 5 * (elapsed - 2)
  else if elapsed < 20 then 15 + 3 * (elapsed - 5)
  else 60 + 2 * (elapsed - 20)

/-- The estimate as the specification words it: `min(base + min(2*queryCount, 40), 150)`. -/
def spec_estimate (elapsed queryCount : Int) : Int :=
  min (spec_base elapsed + min (2 * queryCount) 40) 150

/-- Largest elapsed value for which no `int` operation of the estimator overflows,
whatever the query bonus: `60 + 2*(e-20) + 40 ≤ INT_MAX`. -/
def ELAPSED_SAFE_MAX : Int := 1073741793

/-- Largest query count whose doubling fits in an `int`. -/
def QUERY_SAFE_MAX : Int := 1073741823

/-! ## Data model -/

/-- Number of `steady_clock` periods in one second (the clock counts nanoseconds). -/
def clock_period : Int := 1000000000

/-- Embedding of `duration_cast<seconds>(later - earlier).count()`: the whole seconds between
two time points, truncated toward zero. -/
def seconds_between (later earlier : Int) : Int := Int.tdiv (later - earlier) clock_period

/-- Embedding of `kademlia::endpoint`: an address and a service (port) number. -/
structure endpoint where
  address : String
  service : Int
deriving DecidableEq, Repr

/-- Embedding of `kademlia::session`, the opaque DHT session: it is identified by the two
endpoints handed to its constructor. -/
structure session where
  initial_peer : endpoint
  listen_on : endpoint
deriving DecidableEq, Repr

/-- What `kademlia::session::run` returns: no error, `RUN_ABORTED`, or another error with
its message. -/
inductive run_result where
  | ok
  | RUN_ABORTED
  | other (what : String)
deriving DecidableEq, Repr

/-- The texts the program logs or prints, one constructor per message template of the
source, carrying the values spliced into the text. -/
inductive message where
  /-- Text "DHT client constructed (will initialize session when start() is called)." -/
  | constructed
  /-- Text "Starting DHT client for infohash: " + infohash_hex -/
  | starting (infohash_hex : String)
  /-- Text "Print interval: Ns, Query interval: Ms" -/
  | intervals (sleep_print sleep_query : Int)
  /-- Text "Attempting to initialize DHT session using multiple bootstrap nodes" -/
  | attempting_bootstrap
  /-- Text "Trying bootstrap node: host:port" -/
  | trying_node (host : String) (node_port : Int)
  /-- Text "Successfully bootstrapped from host:port" -/
  | bootstrapped_from (host : String) (node_port : Int)
  /-- Text "Bootstrap attempt failed for host:port -> what" -/
  | bootstrap_attempt_failed (host : String) (node_port : Int) (what : String)
  /-- Text "All bootstrap attempts failed" -/
  | all_bootstrap_attempts_failed
  /-- Text "Session error: " + result.message() -/
  | session_error (what : String)
  /-- Text "connected to N DHT nodes after E seconds" -/
  | connected_to (node_count elapsed : Int)
  /-- Text "Stopping - Final DHT nodes: N" -/
  | stopping_final (node_count : Int)
  /-- Text "Performing DHT queries for infohash: " + m_infohash_hex -/
  | performing_queries (infohash_hex : String)
  /-- Text "Unknown option: " + arg, followed by the usage text -/
  | unknown_option (arg : String)
  /-- The usage text of `print_usage`. -/
  | usage
  /-- Text "Error: Infohash must be 40 hexadecimal characters" -/
  | infohash_must_be_40_hex
  /-- Text "Press Ctrl+C to stop" -/
  | press_ctrl_c
  /-- Text "Error: " + e.what() -/
  | fatal (what : String)
deriving DecidableEq, Repr

/-- Observable actions of the program, in the order they are performed. -/
inductive event where
  /-- A line written by `log_info`. -/
  | log_info (m : message)
  /-- A line written by `log_debug` (only when `m_debug` is set). -/
  | log_debug (m : message)
  /-- A line written by `log_error`. -/
  | log_error (m : message)
  /-- A line written to `std::cout` by `main` or `print_usage`. -/
  | cout (m : message)
  /-- A line written to `std::cerr` by `main`. -/
  | cerr (m : message)
  /-- One call of the `kademlia::session` constructor. -/
  | construct_session (initial_peer listen_on : endpoint)
  /-- A call of `std::this_thread::sleep_for`, in milliseconds. -/
  | sleep_ms (ms : Nat)
  /-- A call of `m_session->run()`. -/
  | session_run
  /-- A call of `m_session->async_load(key, callback)`. -/
  | async_load (key : String)
  /-- A call of `m_session->async_save(key, value, callback)`. -/
  | async_save (key value : String)
  /-- A call of `m_session->abort()`. -/
  | session_abort
  /-- The call `std::async(std::launch::async, &dht_client::main_loop, this)`. -/
  | launch_main_loop
  /-- The call `m_main_loop.wait()`. -/
  | wait_main_loop
  /-- The call `std::signal(SIGINT, handler)`. -/
  | install_sigint_handler
deriving DecidableEq, Repr

/-- The data members of `class dht_client`. `m_main_loop` records whether the future is
valid, that is whether the control loop has been launched. -/
structure dht_client where
  m_session : Option session
  m_main_loop : Bool
  m_debug : Bool
  m_running : Bool
  m_port : Int
  m_infohash_hex : String
  m_sleep_print : Int
  m_sleep_query : Int
  m_stop_nodes : Int
  m_stop_time : Int
  m_bootstrap_timeout_seconds : Int
deriving DecidableEq, Repr

/-- The outside world of the bootstrap selector: the outcome of the `n`-th call of the
`kademlia::session` constructor (counting from 0) on the given initial peer and listen
endpoint; `Except.error what` is a thrown `std::exception` with that `what()`. -/
abbrev session_ctor := Nat → endpoint → endpoint → Except String Unit

/-! ## Logging -/

/-- Embedding of `log_info`. -/
def log_info (m : message) : List event := [event.log_info m]

/-- Embedding of `log_debug`: silent unless `m_debug`. -/
def log_debug (c : dht_client) (m : message) : List event :=
  if c.m_debug then [event.log_debug m] else []

/-- Embedding of `log_error`. -/
def log_error (m : message) : List event := [event.log_error m]

/-! ## Constructor and bootstrap selector -/

/-- Embedding of the constructor `dht_client(address, port, debug, bootstrap_timeout_seconds)`
with the in-class member initialisers; returns the object and what it logs. -/
def dht_client_new (_address : String) (port : Int) (debug : Bool)
    (bootstrap_timeout_seconds : Int) : dht_client × List event :=
  ({ m_session := none
     m_main_loop := false
     m_debug := debug
     m_running := false
     m_port := port
     m_infohash_hex := ""
     m_sleep_print := 1
     m_sleep_query := 30
     m_stop_nodes := 0
     m_stop_time := 0
     m_bootstrap_timeout_seconds := bootstrap_timeout_seconds },
   log_info message.constructed)

/-- Outcome of `initialize_session_from_bootstrap_nodes`: the returned `bool`, the client
afterwards, and the actions performed. -/
structure bootstrap_result where
  ok : Bool
  client : dht_client
  events : List event
deriving DecidableEq, Repr

/-- The `for (const auto& node : bootstrap_nodes)` loop of
`initialize_session_from_bootstrap_nodes` and the code after it; `n` counts the constructor
calls already made. -/
def bootstrap_loop (ctor : session_ctor) (bind_addr : String) (port : Int) :
    Nat → List (String × Int) → dht_client → bootstrap_result
  | _, [], c =>
    { ok := false, client := c, events := log_error message.all_bootstrap_attempts_failed }
  | n, node :: rest, c =>
    let host := node.1
    let node_port := node.2
    let initial_peer : endpoint := ⟨host, node_port⟩
    let listen_on : endpoint := ⟨bind_addr, port⟩
    let tried := log_info (message.trying_node host node_port)
      ++ [event.construct_session initial_peer listen_on]
    match ctor n initial_peer listen_on with
    | Except.ok _ =>
      { ok := true
        client := { c with m_session := some ⟨initial_peer, listen_on⟩ }
        events := tried ++ log_info (message.bootstrapped_from host node_port) }
    | Except.error what =>
      let r := bootstrap_loop ctor bind_addr port (n + 1) rest c
      { ok := r.ok
        client := r.client
        events := tried ++ log_error (message.bootstrap_attempt_failed host node_port what)
          ++ [event.sleep_ms 1000] ++ r.events }

/-- Embedding of `dht_client::initialize_session_from_bootstrap_nodes`. -/
def initialize_session_from_bootstrap_nodes (ctor : session_ctor) (c : dht_client)
    (bootstrap_nodes : List (String × Int)) (bind_addr : String) (port : Int) :
    bootstrap_result :=
  let r := bootstrap_loop ctor bind_addr port 0 bootstrap_nodes c
  { r with events := log_info message.attempting_bootstrap ++ r.events }

/-- The bootstrap node list hard-coded in `start`. -/
def bootstrap_nodes : List (String × Int) :=
  [("router.bittorrent.com", 6881),
   ("router.utorrent.com", 6881),
   ("dht.transmissionbt.com", 6881),
   ("dht.aelitis.com", 6881),
   ("dht.libtorrent.org", 25401)]

/-- Outcome of `start`: `thrown` holds the `what()` of the `std::runtime_error` when `start`
throws, and is `none` when it returns normally. -/
structure start_result where
  thrown : Option String
  client : dht_client
  events : List event
deriving DecidableEq, Repr

/-- Embedding of `dht_client::start`. -/
def start (ctor : session_ctor) (c : dht_client) (infohash_hex : String)
    (sleep_print sleep_query stop_nodes stop_time : Int) (bind_addr : String) : start_result :=
  let c1 : dht_client :=
    { c with
      m_infohash_hex := infohash_hex
      m_sleep_print := sleep_print
      m_sleep_query := sleep_query
      m_stop_nodes := stop_nodes
      m_stop_time := stop_time
      m_running := true }
  let ev := log_info (message.starting infohash_hex)
    ++ log_info (message.intervals sleep_print sleep_query)
  let r := initialize_session_from_bootstrap_nodes ctor c1 bootstrap_nodes bind_addr c1.m_port
  if r.ok = false then
    { thrown := some "Failed to initialize session from bootstrap nodes"
      client := r.client
      events := ev ++ r.events }
  else
    { thrown := none
      client := { r.client with m_main_loop := true }
      events := ev ++ r.events ++ [event.launch_main_loop] }

/-- Embedding of `dht_client::stop`, which is also the whole of the destructor. -/
def stop (c : dht_client) : dht_client × List event :=
  ({ c with m_running := false },
   (if c.m_session.isSome then [event.session_abort] else [])
     ++ (if c.m_main_loop then [event.wait_main_loop] else []))

/-- The failure entries of a log: the lines written by `log_error`, in order. -/
def error_entries : List event → List message
  | [] => []
  | event.log_error m :: rest => m :: error_entries rest
  | _ :: rest => error_entries rest

/-- The constructor calls of an event list: the initial peers tried, in order. -/
def construction_attempts : List event → List endpoint
  | [] => []
  | event.construct_session p _ :: rest => p :: construction_attempts rest
  | _ :: rest => construction_attempts rest

/-- The endpoint built from one entry of a bootstrap node list. -/
def node_endpoint (node : String × Int) : endpoint := ⟨node.1, node.2⟩

/-! ## Query dispatcher and control loop -/

/-- Embedding of `dht_client::perform_dht_queries`: the debug line, one `async_load` and one
`async_save` of `"dht_client:" + std::to_string(m_port)` under the infohash. The two
completion callbacks only write debug lines and are not part of the embedding. -/
def perform_dht_queries (c : dht_client) : List event :=
  let key := c.m_infohash_hex
  let dummy_value := "dht_client:" ++ toString c.m_port
  log_debug c (message.performing_queries c.m_infohash_hex)
    ++ [event.async_load key, event.async_save key dummy_value]

/-- The local variables of `main_loop` that live across iterations. -/
structure loop_cursor where
  start_time : Int
  last_node_count : Int
  last_print_time : Int
  last_query_time : Int
  query_count : Int
deriving DecidableEq, Repr

/-- What one iteration of the `while` loop reads from outside: the value of `m_running` seen
by the loop condition, the value of `steady_clock::now()`, and what `m_session->run()`
returns. -/
structure tick_input where
  running : Bool
  now : Int
  run : run_result
deriving DecidableEq, Repr

/-- What one executed iteration of the loop body did. `null_session` marks an iteration that
reached `perform_dht_queries` without a session (a null `m_session` dereference); `stop` is
whether the stop condition held and `break` was taken. -/
structure tick_record where
  current_time : Int
  elapsed : Int
  node_count : Int
  should_print : Bool
  queried : Bool
  null_session : Bool
  stop : Bool
  events : List event
deriving DecidableEq, Repr

/-- The body of the `while (m_running)` loop of `main_loop`, one iteration: the cursor
afterwards and the record of what was done. -/
def loop_body (c : dht_client) (cur : loop_cursor) (inp : tick_input) :
    loop_cursor × tick_record :=
  let current_time := inp.now
  let elapsed := seconds_between current_time cur.start_time
  let time_since_last_print := seconds_between current_time cur.last_print_time
  let time_since_last_query := seconds_between current_time cur.last_query_time
  let ev_run : List event :=
    match c.m_session with
    | none => []
    | some _ =>
      event.session_run ::
        (match inp.run with
         | run_result.other what => log_error (message.session_error what)
         | _ => [])
  let node_count := estimate_node_count (wrap32 elapsed) cur.query_count
  let should_print : Bool :=
    if node_count ≠ cur.last_node_count then true
    else if time_since_last_print ≥ c.m_sleep_print then true
    else false
  let ev_print : List event :=
    if should_print then log_info (message.connected_to node_count elapsed) else []
  let cur1 : loop_cursor :=
    if should_print then
      { cur with last_node_count := node_count, last_print_time := current_time }
    else cur
  let queried : Bool := decide (time_since_last_query ≥ c.m_sleep_query)
  let ev_query : List event := if queried then perform_dht_queries c else []
  let cur2 : loop_cursor :=
    if queried then
      { cur1 with last_query_time := current_time, query_count := wrap32 (cur1.query_count + 1) }
    else cur1
  let stop : Bool :=
    decide ((c.m_stop_nodes > 0 ∧ node_count ≥ c.m_stop_nodes)
      ∨ (c.m_stop_time > 0 ∧ elapsed ≥ c.m_stop_time))
  let ev_stop : List event :=
    if stop then log_info (message.stopping_final node_count) else [event.sleep_ms 100]
  (cur2,
   { current_time := current_time
     elapsed := elapsed
     node_count := node_count
     should_print := should_print
     queried := queried
     null_session := queried && c.m_session.isNone
     stop := stop
     events := ev_run ++ ev_print ++ ev_query ++ ev_stop })

/-- How a run of the control loop ended: `stop_condition` is the `break`, `running_false` the
loop condition reading `m_running == false`, `null_session` a dereference of a null
`m_session`, and `still_running` means the loop consumed every supplied reading and is about
to test `m_running` again. -/
inductive loop_exit where
  | stop_condition
  | running_false
  | null_session
  | still_running
deriving DecidableEq, Repr

/-- Outcome of a run of the control loop: one record per executed iteration, how the run
ended, and the final cursor. -/
structure loop_result where
  ticks : List tick_record
  exit : loop_exit
  cursor : loop_cursor
deriving DecidableEq, Repr

/-- The `while (m_running) { ... }` loop of `main_loop`, run against the readings the
iterations make. -/
def while_running (c : dht_client) : loop_cursor → List tick_input → loop_result
  | cur, [] => { ticks := [], exit := loop_exit.still_running, cursor := cur }
  | cur, inp :: rest =>
    if inp.running = false then
      { ticks := [], exit := loop_exit.running_false, cursor := cur }
    else
      let r := loop_body c cur inp
      if r.2.null_session then
        { ticks := [r.2], exit := loop_exit.null_session, cursor := r.1 }
      else if r.2.stop then
        { ticks := [r.2], exit := loop_exit.stop_condition, cursor := r.1 }
      else
        let lr := while_running c r.1 rest
        { ticks := r.2 :: lr.ticks, exit := lr.exit, cursor := lr.cursor }

/-- Embedding of `dht_client::main_loop`: `start_time` is the first clock reading, taken
before the loop; `inputs` are the readings of the successive iterations. -/
def main_loop (c : dht_client) (start_time : Int) (inputs : List tick_input) : loop_result :=
  while_running c
    { start_time := start_time
      last_node_count := 0
      last_print_time := start_time
      last_query_time := start_time
      query_count := 0 }
    inputs

/-- A reading of an iteration during which nobody asks the client to stop. -/
def undisturbed (now : Int) (run : run_result) : tick_input :=
  { running := true, now := now, run := run }

/-- The whole seconds elapsed since `start_time` at a reading. -/
def elapsed_at (start_time : Int) (inp : tick_input) : Int :=
  seconds_between inp.now start_time

/-- The node counts of the status lines of a run, in the order printed. -/
def printed_counts : List tick_record → List Int
  | [] => []
  | t :: rest => if t.should_print then t.node_count :: printed_counts rest
    else printed_counts rest

/-! ## The program entry point -/

/-- The local variables of `main` that the command line sets. -/
structure options where
  address : String
  port : Int
  infohash : String
  sleep_print : Int
  sleep_query : Int
  stop_nodes : Int
  stop_time : Int
  debug : Bool
deriving DecidableEq, Repr

/-- The initial values of the option variables in `main`. -/
def default_options : options :=
  { address := "0.0.0.0"
    port := 6881
    infohash := "a9ae5333b345d9c66ed09e2f72eef639dec5ad1d"
    sleep_print := 1
    sleep_query := 30
    stop_nodes := 0
    stop_time := 0
    debug := false }

/-- How the argument loop of `main` ends: all arguments consumed, an early `return` with an
exit status, or an exception escaping from `std::stoi` (which nothing catches). -/
inductive parse_outcome where
  | parsed (o : options)
  | returned (status : Int) (events : List event)
  | uncaught_exception
deriving DecidableEq, Repr

/-- The branches of the argument loop that consume a value, in source order: `--addr`,
`--port`, `--btih`, `--sleep-print`, `--sleep-query`, `--stop-nodes`, `--stop-time`; they are
tried only when a next argument `value` exists (`i + 1 < argc`). Returns the updated
options, or an inner `none` when `std::stoi` throws; the outer `none` means that no such
branch applies. -/
def parse_value_option (stoi : String → Option Int) (arg value : String) (o : options) :
    Option (Option options) :=
  if arg = "--addr" then some (some { o with address := value })
  else if arg = "--port" then
    some ((stoi value).map (fun n => { o with port := wrap_u16 n }))
  else if arg = "--btih" then some (some { o with infohash := value })
  else if arg = "--sleep-print" then
    some ((stoi value).map (fun n => { o with sleep_print := n }))
  else if arg = "--sleep-query" then
    some ((stoi value).map (fun n => { o with sleep_query := n }))
  else if arg = "--stop-nodes" then
    some ((stoi value).map (fun n => { o with stop_nodes := n }))
  else if arg = "--stop-time" then
    some ((stoi value).map (fun n => { o with stop_time := n }))
  else none

/-- The argument loop of `main` over `argv[1..]`. The library function `std::stoi` is a
parameter: `none` stands for a thrown exception. -/
def parse_args (stoi : String → Option Int) : List String → options → parse_outcome
  | [], o => parse_outcome.parsed o
  | [arg], o =>
    if arg = "--help" then parse_outcome.returned 0 [event.cout message.usage]
    else if arg = "--debug" then parse_outcome.parsed { o with debug := true }
    else
      parse_outcome.returned 1
        [event.cerr (message.unknown_option arg), event.cout message.usage]
  | arg :: value :: rest, o =>
    if arg = "--help" then parse_outcome.returned 0 [event.cout message.usage]
    else
      match parse_value_option stoi arg value o with
      | some (some o2) => parse_args stoi rest o2
      | some none => parse_outcome.uncaught_exception
      | none =>
        if arg = "--debug" then parse_args stoi (value :: rest) { o with debug := true }
        else
          parse_outcome.returned 1
            [event.cerr (message.unknown_option arg), event.cout message.usage]

/-- How the control-loop thread is scheduled against the main thread once `start` has
launched it: the first clock reading of `main_loop`, and the clock reading and
`session::run` result of every iteration whose loop condition is tested before `stop`
stores `false` into `m_running`. The next test of the loop condition reads `false`. -/
structure schedule where
  start_time : Int
  before_stop : List (Int × run_result)
deriving DecidableEq, Repr

/-- The readings of the control loop under a schedule. -/
def schedule_inputs (sched : schedule) : List tick_input :=
  sched.before_stop.map (fun p => undisturbed p.1 p.2)
    ++ [{ running := false, now := sched.start_time, run := run_result.RUN_ABORTED }]

/-- Outcome of `main`: the exit status (`none` when the process is terminated by an uncaught
exception), whether a `dht_client` object was constructed, the actions of the main thread in
order, whether the destructor called `stop`, and the run of the control loop when it was
launched. -/
structure main_result where
  status : Option Int
  client_constructed : Bool
  events : List event
  stop_called : Bool
  loop : Option loop_result
deriving DecidableEq, Repr

/-- Embedding of `main`. No SIGINT is delivered. The client object lives in the `try` block,
so its destructor, which calls `stop`, runs when the block is left: after `start` returns,
or while the exception thrown by `start` propagates. -/
def main (stoi : String → Option Int) (ctor : session_ctor) (sched : schedule)
    (args : List String) : main_result :=
  match parse_args stoi args default_options with
  | parse_outcome.returned status events =>
    { status := some status, client_constructed := false, events := events,
      stop_called := false, loop := none }
  | parse_outcome.uncaught_exception =>
    { status := none, client_constructed := false, events := [],
      stop_called := false, loop := none }
  | parse_outcome.parsed o =>
    if o.infohash.utf8ByteSize ≠ 40 then
      { status := some 1, client_constructed := false,
        events := [event.cerr message.infohash_must_be_40_hex],
        stop_called := false, loop := none }
    else
      let made := dht_client_new o.address o.port o.debug 15
      let ev := made.2 ++ [event.install_sigint_handler,
        event.cout (message.starting o.infohash), event.cout message.press_ctrl_c]
      let started := start ctor made.1 o.infohash o.sleep_print o.sleep_query o.stop_nodes
        o.stop_time o.address
      let stopped := stop started.client
      match started.thrown with
      | some what =>
        { status := some 1, client_constructed := true,
          events := ev ++ started.events ++ stopped.2 ++ [event.cerr (message.fatal what)],
          stop_called := true, loop := none }
      | none =>
        { status := some 0, client_constructed := true,
          events := ev ++ started.events ++ stopped.2,
          stop_called := true,
          loop := some (main_loop started.client sched.start_time (schedule_inputs sched)) }

/-- Whether a character is a hexadecimal digit, for the infohash format of the
specification. -/
def spec_is_hex_char (ch : Char) : Bool :=
  (decide ('0' ≤ ch) && decide (ch ≤ '9')) || (decide ('a' ≤ ch) && decide (ch ≤ 'f'))
    || (decide ('A' ≤ ch) && decide (ch ≤ 'F'))

/-- The infohash format as the specification words it (section 6): exactly 40
hexadecimal characters. -/
def spec_infohash_valid (s : String) : Bool := s.length = 40 && s.data.all spec_is_hex_char

/-- An infohash argument of 40 characters none of which is a hexadecimal digit. -/
def non_hex_infohash : String := "zzzzzzzzzzzzzzzzzzzzzzzzzzzzzzzzzzzzzzzz"

/-- A session constructor that succeeds on every call. -/
def ctor_always_ok : session_ctor := fun _ _ _ => Except.ok ()

/-- A session constructor that throws on every call. -/
def ctor_always_fails : session_ctor := fun _ _ _ => Except.error "timed out"

/-- A `std::stoi` stand-in that rejects every string. -/
def stoi_none : String → Option Int := fun _ => none

/-- The node a bootstrap-failure log line is about, when the line is one. -/
def failed_node : message → Option endpoint
  | message.bootstrap_attempt_failed host node_port _ => some ⟨host, node_port⟩
  | _ => none

/-- The client as a successful `start` leaves it, for the default address, port and infohash
and the given intervals and stop conditions: the session is the one with the first
bootstrap node. -/
def started_client (sleep_print sleep_query stop_nodes stop_time : Int) : dht_client :=
  (start ctor_always_ok (dht_client_new "0.0.0.0" 6881 false 15).1
    "a9ae5333b345d9c66ed09e2f72eef639dec5ad1d" sleep_print sleep_query stop_nodes stop_time
    "0.0.0.0").client

/-- The session `started_client` holds. -/
def first_node_session : session :=
  ⟨⟨"router.bittorrent.com", 6881⟩, ⟨"0.0.0.0", 6881⟩⟩

/-- A clock reading given in milliseconds after time point 0, with `session::run` reporting
no error and nobody asking the client to stop. -/
def at_ms (ms : Int) : tick_input := undisturbed (ms * 1000000) run_result.ok

/-! ### Lemmas on the estimator -/

theorem wrap32_of_range {x : Int} (hlo : -2147483648 ≤ x) (hhi : x ≤ 2147483647) :
    wrap32 x = x := by
  unfold wrap32
  omega

theorem estimate_eq_spec_of_safe {e q : Int} (he0 : 0 ≤ e) (he : e ≤ ELAPSED_SAFE_MAX)
    (hq0 : 0 ≤ q) (hq : q ≤ QUERY_SAFE_MAX) :
    estimate_node_count e q = spec_estimate e q := by
  unfold ELAPSED_SAFE_MAX at he
  unfold QUERY_SAFE_MAX at hq
  have hq2 : wrap32 (q * 2) = 2 * q := by
    rw [wrap32_of_range (by omega) (by omega)]; ring
  unfold estimate_node_count spec_estimate spec_base
  simp only [hq2]
  have hb : min (2 * q) 40 ≤ 40 := min_le_right _ _
  have hb0 : 0 ≤ min (2 * q) 40 := le_min (by omega) (by omega)
  split_ifs with h1 h2 h3
  · rw [wrap32_of_range (by omega) (by omega)]
  · rw [wrap32_of_range (x := e - 2) (by omega) (by omega),
      wrap32_of_range (x := (e - 2) * 5) (by omega) (by omega),
      wrap32_of_range (x := 4 + (e - 2) * 5) (by omega) (by omega),
      wrap32_of_range (by omega) (by omega)]
    congr 1; ring
  · rw [wrap32_of_range (x := e - 5) (by omega) (by omega),
      wrap32_of_range (x := (e - 5) * 3) (by omega) (by omega),
      wrap32_of_range (x := 15 + (e - 5) * 3) (by omega) (by omega),
      wrap32_of_range (by omega) (by omega)]
    congr 1; ring
  · rw [wrap32_of_range (x := e - 20) (by omega) (by omega),
      wrap32_of_range (x := (e - 20) * 2) (by omega) (by omega),
      wrap32_of_range (x := 60 + (e - 20) * 2) (by omega) (by omega),
      wrap32_of_range (by omega) (by omega)]
    congr 1; ring

theorem spec_base_mono {e1 e2 : Int} (h : e1 ≤ e2) : spec_base e1 ≤ spec_base e2 := by
  unfold spec_base
  split_ifs <;> omega

theorem spec_estimate_mono_elapsed {e1 e2 : Int} (q : Int) (h : e1 ≤ e2) :
    spec_estimate e1 q ≤ spec_estimate e2 q := by
  unfold spec_estimate
  have := spec_base_mono h
  exact min_le_min (by omega) le_rfl

theorem spec_estimate_mono_query (e : Int) {q1 q2 : Int} (h : q1 ≤ q2) :
    spec_estimate e q1 ≤ spec_estimate e q2 := by
  unfold spec_estimate
  have hm : min (2 * q1) 40 ≤ min (2 * q2) 40 := min_le_min (by omega) le_rfl
  exact min_le_min (by omega) le_rfl

theorem spec_base_nonneg (e : Int) : 0 ≤ spec_base e := by
  unfold spec_base
  split_ifs <;> omega

theorem spec_estimate_nonneg (e : Int) {q : Int} (hq : 0 ≤ q) : 0 ≤ spec_estimate e q := by
  unfold spec_estimate
  have := spec_base_nonneg e
  have hb0 : 0 ≤ min (2 * q) 40 := le_min (by omega) (by omega)
  exact le_min (by omega) (by omega)

theorem estimate_le_150 (e q : Int) : estimate_node_count e q ≤ 150 := by
  unfold estimate_node_count
  exact min_le_right _ _


/-! ### Lemmas on the bootstrap selector -/

theorem error_entries_append (a b : List event) :
    error_entries (a ++ b) = error_entries a ++ error_entries b := by
  induction a with
  | nil => rfl
  | cons x xs ih => cases x <;> simp [error_entries, ih]

theorem construction_attempts_append (a b : List event) :
    construction_attempts (a ++ b) = construction_attempts a ++ construction_attempts b := by
  induction a with
  | nil => rfl
  | cons x xs ih => cases x <;> simp [construction_attempts, ih]

theorem bootstrap_loop_first_success (ctor : session_ctor) (bind_addr : String) (port : Int)
    (c : dht_client) :
    ∀ (nodes : List (String × Int)) (n k : Nat) (node_k : String × Int),
      nodes[k]? = some node_k →
      (∀ i node, i < k → nodes[i]? = some node →
        ∃ what, ctor (n + i) (node_endpoint node) ⟨bind_addr, port⟩ = Except.error what) →
      ctor (n + k) (node_endpoint node_k) ⟨bind_addr, port⟩ = Except.ok () →
      (bootstrap_loop ctor bind_addr port n nodes c).ok = true
        ∧ (bootstrap_loop ctor bind_addr port n nodes c).client
            = { c with m_session := some ⟨node_endpoint node_k, ⟨bind_addr, port⟩⟩ }
        ∧ (error_entries (bootstrap_loop ctor bind_addr port n nodes c).events).map failed_node
            = (nodes.take k).map (fun nd => some (node_endpoint nd))
        ∧ construction_attempts (bootstrap_loop ctor bind_addr port n nodes c).events
            = (nodes.take (k + 1)).map node_endpoint := by
  intro nodes
  induction nodes with
  | nil => intro n k node_k hk; simp at hk
  | cons node rest ih =>
    intro n k node_k hk hfail hok
    cases k with
    | zero =>
      simp only [List.getElem?_cons_zero, Option.some.injEq] at hk
      subst hk
      simp only [Nat.add_zero, node_endpoint] at hok
      simp [bootstrap_loop, hok, log_info, error_entries, construction_attempts, node_endpoint]
    | succ k =>
      obtain ⟨what, hwhat⟩ := hfail 0 node (Nat.succ_pos k) (by simp)
      simp only [Nat.add_zero, node_endpoint] at hwhat
      simp only [List.getElem?_cons_succ] at hk
      have hfail2 : ∀ i nd, i < k → rest[i]? = some nd →
          ∃ w, ctor (n + 1 + i) (node_endpoint nd) ⟨bind_addr, port⟩ = Except.error w := by
        intro i nd hi hnd
        have := hfail (i + 1) nd (Nat.succ_lt_succ hi) (by simpa using hnd)
        rwa [show n + (i + 1) = n + 1 + i by omega] at this
      have hok2 : ctor (n + 1 + k) (node_endpoint node_k) ⟨bind_addr, port⟩ = Except.ok () := by
        rwa [show n + (k + 1) = n + 1 + k by omega] at hok
      obtain ⟨h1, h2, h3, h4⟩ := ih (n + 1) k node_k hk hfail2 hok2
      simp [bootstrap_loop, hwhat, log_info, log_error, error_entries_append,
        construction_attempts_append, error_entries, construction_attempts, failed_node,
        node_endpoint, h1, h2, h3, h4]

theorem bootstrap_loop_all_fail (ctor : session_ctor) (bind_addr : String) (port : Int)
    (c : dht_client) :
    ∀ (nodes : List (String × Int)) (n : Nat),
      (∀ i node, nodes[i]? = some node →
        ∃ what, ctor (n + i) (node_endpoint node) ⟨bind_addr, port⟩ = Except.error what) →
      (bootstrap_loop ctor bind_addr port n nodes c).ok = false
        ∧ (bootstrap_loop ctor bind_addr port n nodes c).client = c
        ∧ (error_entries (bootstrap_loop ctor bind_addr port n nodes c).events).map failed_node
            = nodes.map (fun nd => some (node_endpoint nd)) ++ [none]
        ∧ construction_attempts (bootstrap_loop ctor bind_addr port n nodes c).events
            = nodes.map node_endpoint
        ∧ event.launch_main_loop ∉ (bootstrap_loop ctor bind_addr port n nodes c).events := by
  intro nodes
  induction nodes with
  | nil =>
    intro n _
    simp [bootstrap_loop, log_error, error_entries, construction_attempts, failed_node]
  | cons node rest ih =>
    intro n hfail
    obtain ⟨what, hwhat⟩ := hfail 0 node (by simp)
    simp only [Nat.add_zero, node_endpoint] at hwhat
    have hfail2 : ∀ i nd, rest[i]? = some nd →
        ∃ w, ctor (n + 1 + i) (node_endpoint nd) ⟨bind_addr, port⟩ = Except.error w := by
      intro i nd hnd
      have := hfail (i + 1) nd (by simpa using hnd)
      rwa [show n + (i + 1) = n + 1 + i by omega] at this
    obtain ⟨h1, h2, h3, h4, h5⟩ := ih (n + 1) hfail2
    simp [bootstrap_loop, hwhat, log_info, log_error, error_entries_append,
      construction_attempts_append, error_entries, construction_attempts, failed_node,
      node_endpoint, h1, h2, h3, h4, h5]

/-! ### Lemmas on the control loop -/

theorem loop_body_current_time (c : dht_client) (cur : loop_cursor) (inp : tick_input) :
    (loop_body c cur inp).2.current_time = inp.now := rfl

theorem loop_body_elapsed (c : dht_client) (cur : loop_cursor) (inp : tick_input) :
    (loop_body c cur inp).2.elapsed = seconds_between inp.now cur.start_time := rfl

theorem loop_body_node_count (c : dht_client) (cur : loop_cursor) (inp : tick_input) :
    (loop_body c cur inp).2.node_count
      = estimate_node_count (wrap32 (seconds_between inp.now cur.start_time)) cur.query_count :=
  rfl

theorem loop_body_queried (c : dht_client) (cur : loop_cursor) (inp : tick_input) :
    (loop_body c cur inp).2.queried
      = decide (seconds_between inp.now cur.last_query_time ≥ c.m_sleep_query) := rfl

theorem loop_body_stop (c : dht_client) (cur : loop_cursor) (inp : tick_input) :
    (loop_body c cur inp).2.stop
      = decide ((c.m_stop_nodes > 0 ∧ (loop_body c cur inp).2.node_count ≥ c.m_stop_nodes)
          ∨ (c.m_stop_time > 0 ∧ seconds_between inp.now cur.start_time ≥ c.m_stop_time)) :=
  rfl

theorem loop_body_should_print (c : dht_client) (cur : loop_cursor) (inp : tick_input) :
    (loop_body c cur inp).2.should_print = true
      ↔ ((loop_body c cur inp).2.node_count ≠ cur.last_node_count
          ∨ c.m_sleep_print ≤ seconds_between inp.now cur.last_print_time) := by
  simp only [loop_body]
  split_ifs with h1 h2
  · exact ⟨fun _ => Or.inl h1, fun _ => rfl⟩
  · exact ⟨fun _ => Or.inr h2, fun _ => rfl⟩
  · constructor
    · intro h; cases h
    · rintro (h | h)
      · exact absurd h h1
      · exact absurd h h2

theorem loop_body_null_session (c : dht_client) (cur : loop_cursor) (inp : tick_input)
    {s : session} (hs : c.m_session = some s) : (loop_body c cur inp).2.null_session = false := by
  simp [loop_body, hs]

theorem loop_body_start_time (c : dht_client) (cur : loop_cursor) (inp : tick_input) :
    (loop_body c cur inp).1.start_time = cur.start_time := by
  simp only [loop_body]
  split_ifs <;> rfl

theorem loop_body_last_print (c : dht_client) (cur : loop_cursor) (inp : tick_input) :
    ((loop_body c cur inp).2.should_print = true →
        (loop_body c cur inp).1.last_node_count = (loop_body c cur inp).2.node_count
          ∧ (loop_body c cur inp).1.last_print_time = inp.now)
      ∧ ((loop_body c cur inp).2.should_print = false →
        (loop_body c cur inp).1.last_node_count = cur.last_node_count
          ∧ (loop_body c cur inp).1.last_print_time = cur.last_print_time) := by
  simp only [loop_body]
  split_ifs <;> simp_all

theorem loop_body_query_cursor (c : dht_client) (cur : loop_cursor) (inp : tick_input) :
    ((loop_body c cur inp).2.queried = true →
        (loop_body c cur inp).1.query_count = wrap32 (cur.query_count + 1)
          ∧ (loop_body c cur inp).1.last_query_time = inp.now)
      ∧ ((loop_body c cur inp).2.queried = false →
        (loop_body c cur inp).1.query_count = cur.query_count
          ∧ (loop_body c cur inp).1.last_query_time = cur.last_query_time) := by
  simp only [loop_body]
  split_ifs <;> simp_all

theorem while_running_nil (c : dht_client) (cur : loop_cursor) :
    while_running c cur [] = { ticks := [], exit := loop_exit.still_running, cursor := cur } :=
  rfl

theorem while_running_cons_continue (c : dht_client) (cur : loop_cursor) (inp : tick_input)
    (rest : List tick_input) (hrun : inp.running = true)
    (hnull : (loop_body c cur inp).2.null_session = false)
    (hstop : (loop_body c cur inp).2.stop = false) :
    while_running c cur (inp :: rest)
      = { ticks := (loop_body c cur inp).2 :: (while_running c (loop_body c cur inp).1 rest).ticks
          exit := (while_running c (loop_body c cur inp).1 rest).exit
          cursor := (while_running c (loop_body c cur inp).1 rest).cursor } := by
  simp [while_running, hrun, hnull, hstop]

theorem while_running_cons_stop (c : dht_client) (cur : loop_cursor) (inp : tick_input)
    (rest : List tick_input) (hrun : inp.running = true)
    (hnull : (loop_body c cur inp).2.null_session = false)
    (hstop : (loop_body c cur inp).2.stop = true) :
    while_running c cur (inp :: rest)
      = { ticks := [(loop_body c cur inp).2]
          exit := loop_exit.stop_condition
          cursor := (loop_body c cur inp).1 } := by
  simp [while_running, hrun, hnull, hstop]

theorem while_running_append (c : dht_client) :
    ∀ (pre : List tick_input) (cur : loop_cursor) (rest : List tick_input),
      (while_running c cur pre).exit = loop_exit.still_running →
      while_running c cur (pre ++ rest)
        = { ticks := (while_running c cur pre).ticks
              ++ (while_running c (while_running c cur pre).cursor rest).ticks
            exit := (while_running c (while_running c cur pre).cursor rest).exit
            cursor := (while_running c (while_running c cur pre).cursor rest).cursor } := by
  intro pre
  induction pre with
  | nil => intro cur rest _; simp [while_running]
  | cons inp pre ih =>
    intro cur rest h
    by_cases hrun : inp.running = true
    · by_cases hnull : (loop_body c cur inp).2.null_session = true
      · simp [while_running, hrun, hnull] at h
      · by_cases hstop : (loop_body c cur inp).2.stop = true
        · simp [while_running, hrun, hnull, hstop] at h
        · simp only [Bool.not_eq_true] at hnull hstop
          rw [while_running_cons_continue c cur inp pre hrun hnull hstop] at h ⊢
          rw [List.cons_append, while_running_cons_continue c cur inp (pre ++ rest) hrun hnull hstop,
            ih (loop_body c cur inp).1 rest h]
          simp
    · simp [while_running, hrun] at h

theorem loop_body_stop_time_only (c : dht_client) (cur : loop_cursor) (inp : tick_input)
    (hnodes : c.m_stop_nodes = 0) (hN : 0 < c.m_stop_time) :
    (loop_body c cur inp).2.stop
      = decide (c.m_stop_time ≤ seconds_between inp.now cur.start_time) := by
  rw [loop_body_stop]
  simp [hnodes, hN]

theorem while_running_before_stop_time (c : dht_client) {s : session}
    (hs : c.m_session = some s) (hnodes : c.m_stop_nodes = 0) (hN : 0 < c.m_stop_time)
    (start_time : Int) :
    ∀ (pre : List tick_input) (cur : loop_cursor), cur.start_time = start_time →
      (∀ inp ∈ pre, inp.running = true) →
      (∀ inp ∈ pre, elapsed_at start_time inp < c.m_stop_time) →
      (while_running c cur pre).exit = loop_exit.still_running
        ∧ (while_running c cur pre).ticks.length = pre.length
        ∧ (while_running c cur pre).ticks.map (fun t => t.current_time)
            = pre.map (fun inp => inp.now)
        ∧ (∀ t ∈ (while_running c cur pre).ticks, t.stop = false ∧ t.elapsed < c.m_stop_time)
        ∧ (while_running c cur pre).cursor.start_time = start_time := by
  intro pre
  induction pre with
  | nil => intro cur hcur _ _; simp [while_running, hcur]
  | cons inp pre ih =>
    intro cur hcur hrun hpre
    have hrun0 := hrun inp (List.mem_cons_self _ _)
    have hlt := hpre inp (List.mem_cons_self _ _)
    have hnull := loop_body_null_session c cur inp hs
    have hstop : (loop_body c cur inp).2.stop = false := by
      rw [loop_body_stop_time_only c cur inp hnodes hN, hcur]
      simpa [elapsed_at] using hlt
    have hst : (loop_body c cur inp).1.start_time = start_time := by
      rw [loop_body_start_time, hcur]
    obtain ⟨h1, h2, h3, h4, h5⟩ := ih (loop_body c cur inp).1 hst
      (fun x hx => hrun x (List.mem_cons_of_mem _ hx))
      (fun x hx => hpre x (List.mem_cons_of_mem _ hx))
    rw [while_running_cons_continue c cur inp pre hrun0 hnull hstop]
    refine ⟨h1, by simp [h2], by simp [h3, loop_body_current_time], ?_, h5⟩
    intro t ht
    simp only [List.mem_cons] at ht
    rcases ht with ht | ht
    · subst ht
      refine ⟨hstop, ?_⟩
      rw [loop_body_elapsed, hcur]
      exact hlt
    · exact h4 t ht

theorem seconds_between_ge {a b P : Int} (hP : 1 ≤ P) (h : P ≤ seconds_between a b) :
    b + P * clock_period ≤ a := by
  unfold seconds_between clock_period at *
  by_cases hx : 0 ≤ a - b
  · rw [Int.tdiv_eq_ediv hx (by decide)] at h
    have := (Int.le_ediv_iff_mul_le (by decide : (0 : Int) < 1000000000)).1 h
    omega
  · exfalso
    have hneg : a - b = -(b - a) := by ring
    rw [hneg, Int.neg_tdiv] at h
    have := Int.tdiv_nonneg (a := b - a) (b := 1000000000) (by omega) (by decide)
    omega

theorem status_line_iff (c : dht_client) (cur : loop_cursor) (inp : tick_input) :
    event.log_info (message.connected_to (loop_body c cur inp).2.node_count
        (loop_body c cur inp).2.elapsed) ∈ (loop_body c cur inp).2.events
      ↔ (loop_body c cur inp).2.should_print = true := by
  simp only [loop_body, perform_dht_queries, log_info, log_debug, log_error]
  cases c.m_session <;> cases inp.run <;> split_ifs <;> simp_all

theorem while_running_ticks_cons (c : dht_client) (cur : loop_cursor)
    (inputs : List tick_input) (t : tick_record) (T : List tick_record)
    (h : (while_running c cur inputs).ticks = t :: T) :
    ∃ inp rest, inputs = inp :: rest ∧ t = (loop_body c cur inp).2
      ∧ (T = [] ∨ T = (while_running c (loop_body c cur inp).1 rest).ticks) := by
  cases inputs with
  | nil => simp [while_running] at h
  | cons inp rest =>
    refine ⟨inp, rest, rfl, ?_⟩
    simp only [while_running] at h
    split_ifs at h
    · injection h with ha hb
      exact ⟨ha.symm, Or.inl hb.symm⟩
    · injection h with ha hb
      exact ⟨ha.symm, Or.inl hb.symm⟩
    · injection h with ha hb
      exact ⟨ha.symm, Or.inr hb.symm⟩

theorem print_after_constant_stretch (c : dht_client) (hP : 1 ≤ c.m_sleep_print)
    (t0 n : Int) :
    ∀ (B : List tick_record) (cur : loop_cursor) (rest : List tick_input)
      (tj : tick_record) (C : List tick_record),
      (while_running c cur rest).ticks = B ++ tj :: C →
      cur.last_node_count = n → t0 ≤ cur.last_print_time →
      (∀ inp ∈ rest, t0 ≤ inp.now) →
      (∀ t ∈ B, t.node_count = n) → tj.node_count = n → tj.should_print = true →
      t0 + c.m_sleep_print * clock_period ≤ tj.current_time := by
  intro B
  induction B with
  | nil =>
    intro cur rest tj C hticks hn ht0 _ _ hnj hpj
    obtain ⟨inp, rest2, _, htj, _⟩ := while_running_ticks_cons c cur rest tj C hticks
    subst htj
    rcases (loop_body_should_print c cur inp).1 hpj with h | h
    · exact absurd (hnj.trans hn.symm) h
    · have := seconds_between_ge hP h
      rw [loop_body_current_time]
      omega
  | cons b B ih =>
    intro cur rest tj C hticks hn ht0 hnow hB hnj hpj
    obtain ⟨inp, rest2, hrest, hb, hT⟩ :=
      while_running_ticks_cons c cur rest b (B ++ tj :: C) hticks
    rcases hT with hT | hT
    · simp at hT
    · subst hrest
      have hbn : (loop_body c cur inp).2.node_count = n := by
        rw [← hb]; exact hB b (List.mem_cons_self _ _)
      have hinp : t0 ≤ inp.now := hnow inp (List.mem_cons_self _ _)
      have hcur := loop_body_last_print c cur inp
      have hn2 : (loop_body c cur inp).1.last_node_count = n
          ∧ t0 ≤ (loop_body c cur inp).1.last_print_time := by
        cases hsp : (loop_body c cur inp).2.should_print with
        | true =>
          obtain ⟨e1, e2⟩ := hcur.1 hsp
          exact ⟨e1.trans hbn, by rw [e2]; exact hinp⟩
        | false =>
          obtain ⟨e1, e2⟩ := hcur.2 hsp
          exact ⟨e1.trans hn, by rw [e2]; exact ht0⟩
      exact ih (loop_body c cur inp).1 rest2 tj C hT.symm hn2.1 hn2.2
        (fun x hx => hnow x (List.mem_cons_of_mem _ hx))
        (fun t ht => hB t (List.mem_cons_of_mem _ ht)) hnj hpj

theorem prints_spaced_in_constant_stretch (c : dht_client) (hP : 1 ≤ c.m_sleep_print) :
    ∀ (A : List tick_record) (cur : loop_cursor) (inputs : List tick_input)
      (ti : tick_record) (B : List tick_record) (tj : tick_record) (C : List tick_record),
      List.Pairwise (fun x y : tick_input => x.now ≤ y.now) inputs →
      (while_running c cur inputs).ticks = A ++ ti :: (B ++ tj :: C) →
      ti.should_print = true → tj.should_print = true →
      (∀ t ∈ B, t.node_count = ti.node_count) → tj.node_count = ti.node_count →
      ti.current_time + c.m_sleep_print * clock_period ≤ tj.current_time := by
  intro A
  induction A with
  | nil =>
    intro cur inputs ti B tj C hmono hticks hpi hpj hB hnj
    obtain ⟨inp, rest, hin, hti, hT⟩ :=
      while_running_ticks_cons c cur inputs ti (B ++ tj :: C) hticks
    rcases hT with hT | hT
    · simp at hT
    · subst hin
      subst hti
      obtain ⟨e1, e2⟩ := (loop_body_last_print c cur inp).1 hpi
      rw [loop_body_current_time]
      exact print_after_constant_stretch c hP inp.now _ B (loop_body c cur inp).1 rest tj C
        hT.symm e1 (le_of_eq e2.symm) (fun x hx => List.rel_of_pairwise_cons hmono hx) hB hnj hpj
  | cons a A ih =>
    intro cur inputs ti B tj C hmono hticks hpi hpj hB hnj
    obtain ⟨inp, rest, hin, _, hT⟩ :=
      while_running_ticks_cons c cur inputs a (A ++ ti :: (B ++ tj :: C)) hticks
    rcases hT with hT | hT
    · simp at hT
    · subst hin
      exact ih (loop_body c cur inp).1 rest ti B tj C (List.Pairwise.of_cons hmono) hT.symm
        hpi hpj hB hnj

theorem seconds_between_nonneg {a b : Int} (h : b ≤ a) : 0 ≤ seconds_between a b := by
  unfold seconds_between clock_period
  exact Int.tdiv_nonneg (by omega) (by decide)

theorem seconds_between_mono {a1 a2 b : Int} (h1 : b ≤ a1) (h2 : a1 ≤ a2) :
    seconds_between a1 b ≤ seconds_between a2 b := by
  unfold seconds_between clock_period
  rw [Int.tdiv_eq_ediv (by omega) (by decide), Int.tdiv_eq_ediv (by omega) (by decide)]
  exact Int.ediv_le_ediv (by decide) (by omega)

theorem estimate_zero_queries_lt_60 {e : Int} (h0 : 0 ≤ e) (h : e < 20) :
    estimate_node_count e 0 < 60 := by
  rw [estimate_eq_spec_of_safe h0 (by unfold ELAPSED_SAFE_MAX; omega) le_rfl (by decide)]
  unfold spec_estimate spec_base
  simp only [min_def]
  split_ifs <;> omega

theorem estimate_zero_queries_ge_60 {e : Int} (h : 20 ≤ e) (hmax : e ≤ ELAPSED_SAFE_MAX) :
    60 ≤ estimate_node_count e 0 := by
  rw [estimate_eq_spec_of_safe (by omega) hmax le_rfl (by decide)]
  unfold spec_estimate spec_base
  simp only [min_def]
  split_ifs <;> omega

theorem estimate_zero_queries_mono {e1 e2 : Int} (h0 : 0 ≤ e1) (h : e1 ≤ e2)
    (hmax : e2 ≤ ELAPSED_SAFE_MAX) : estimate_node_count e1 0 ≤ estimate_node_count e2 0 := by
  rw [estimate_eq_spec_of_safe h0 (le_trans h hmax) le_rfl (by decide),
    estimate_eq_spec_of_safe (le_trans h0 h) hmax le_rfl (by decide)]
  exact spec_estimate_mono_elapsed 0 h

theorem printed_counts_sublist (ticks : List tick_record) :
    List.Sublist (printed_counts ticks) (ticks.map (fun t => t.node_count)) := by
  induction ticks with
  | nil => exact List.Sublist.slnil
  | cons t rest ih =>
    simp only [printed_counts, List.map_cons]
    split_ifs
    · exact List.Sublist.cons₂ _ ih
    · exact List.Sublist.cons _ ih

theorem loop_body_no_query_yet (c : dht_client) (cur : loop_cursor) (inp : tick_input)
    (start_time : Int) (h60 : c.m_stop_nodes = 60) (h0 : c.m_stop_time = 0)
    (hq : c.m_sleep_query = 30) (hst : cur.start_time = start_time)
    (hlq : cur.last_query_time = start_time) (hqc : cur.query_count = 0)
    (hnow : start_time ≤ inp.now) (hmax : elapsed_at start_time inp ≤ ELAPSED_SAFE_MAX) :
    (loop_body c cur inp).2.node_count = estimate_node_count (elapsed_at start_time inp) 0
      ∧ (loop_body c cur inp).2.queried = decide (30 ≤ elapsed_at start_time inp)
      ∧ (loop_body c cur inp).2.stop
          = decide (60 ≤ estimate_node_count (elapsed_at start_time inp) 0) := by
  have hnn : 0 ≤ elapsed_at start_time inp := seconds_between_nonneg hnow
  have hw : wrap32 (elapsed_at start_time inp) = elapsed_at start_time inp :=
    wrap32_of_range (by omega) (by unfold ELAPSED_SAFE_MAX at hmax; omega)
  have hn : (loop_body c cur inp).2.node_count
      = estimate_node_count (elapsed_at start_time inp) 0 := by
    rw [loop_body_node_count, hst, hqc]
    unfold elapsed_at at hw ⊢
    rw [hw]
  refine ⟨hn, ?_, ?_⟩
  · rw [loop_body_queried, hlq, hq]
    rfl
  · rw [loop_body_stop, hn, h60, h0]
    simp

theorem while_running_before_sixty (c : dht_client) {s : session}
    (hs : c.m_session = some s) (h60 : c.m_stop_nodes = 60) (h0 : c.m_stop_time = 0)
    (hq : c.m_sleep_query = 30) (start_time : Int) :
    ∀ (pre : List tick_input) (cur : loop_cursor), cur.start_time = start_time →
      cur.last_query_time = start_time → cur.query_count = 0 →
      (∀ inp ∈ pre, inp.running = true) →
      (∀ inp ∈ pre, start_time ≤ inp.now) →
      (∀ inp ∈ pre, elapsed_at start_time inp < 20) →
      (while_running c cur pre).exit = loop_exit.still_running
        ∧ (while_running c cur pre).ticks.length = pre.length
        ∧ (while_running c cur pre).ticks.map (fun t => t.current_time)
            = pre.map (fun inp => inp.now)
        ∧ (while_running c cur pre).ticks.map (fun t => t.node_count)
            = pre.map (fun inp => estimate_node_count (elapsed_at start_time inp) 0)
        ∧ (∀ t ∈ (while_running c cur pre).ticks,
            t.stop = false ∧ t.queried = false ∧ t.node_count < 60 ∧ t.elapsed < 20)
        ∧ (while_running c cur pre).cursor.start_time = start_time
        ∧ (while_running c cur pre).cursor.last_query_time = start_time
        ∧ (while_running c cur pre).cursor.query_count = 0 := by
  intro pre
  induction pre with
  | nil => intro cur h1 h2 h3 _ _ _; simp [while_running, h1, h2, h3]
  | cons inp pre ih =>
    intro cur hst hlq hqc hrun hnow hpre
    have hrun0 := hrun inp (List.mem_cons_self _ _)
    have hnow0 := hnow inp (List.mem_cons_self _ _)
    have hlt := hpre inp (List.mem_cons_self _ _)
    have hnn : 0 ≤ elapsed_at start_time inp := seconds_between_nonneg hnow0
    obtain ⟨f1, f2, f3⟩ := loop_body_no_query_yet c cur inp start_time h60 h0 hq hst hlq hqc
      hnow0 (by unfold ELAPSED_SAFE_MAX; omega)
    have hlt60 := estimate_zero_queries_lt_60 hnn hlt
    have hnull := loop_body_null_session c cur inp hs
    have hstop : (loop_body c cur inp).2.stop = false := by
      rw [f3]; simpa using hlt60
    have hqf : (loop_body c cur inp).2.queried = false := by
      rw [f2]; simp; omega
    obtain ⟨g1, g2⟩ := (loop_body_query_cursor c cur inp).2 hqf
    obtain ⟨k1, k2, k3, k4, k5, k6, k7, k8⟩ := ih (loop_body c cur inp).1
      (by rw [loop_body_start_time, hst]) (by rw [g2, hlq]) (by rw [g1, hqc])
      (fun x hx => hrun x (List.mem_cons_of_mem _ hx))
      (fun x hx => hnow x (List.mem_cons_of_mem _ hx))
      (fun x hx => hpre x (List.mem_cons_of_mem _ hx))
    rw [while_running_cons_continue c cur inp pre hrun0 hnull hstop]
    refine ⟨k1, by simp [k2], by simp [k3, loop_body_current_time], by simp [k4, f1], ?_,
      k6, k7, k8⟩
    intro t ht
    simp only [List.mem_cons] at ht
    rcases ht with ht | ht
    · subst ht
      refine ⟨hstop, hqf, by rw [f1]; exact hlt60, ?_⟩
      rw [loop_body_elapsed, hst]
      exact hlt
    · exact k5 t ht

theorem loop_body_stop_disabled (c : dht_client) (cur : loop_cursor) (inp : tick_input)
    (hnodes : c.m_stop_nodes = 0) (htime : c.m_stop_time = 0) :
    (loop_body c cur inp).2.stop = false := by
  rw [loop_body_stop]
  simp [hnodes, htime]

theorem while_running_until_stop_called (c : dht_client) {s : session}
    (hs : c.m_session = some s) (hnodes : c.m_stop_nodes = 0) (htime : c.m_stop_time = 0)
    (last : tick_input) (hlast : last.running = false) :
    ∀ (before : List (Int × run_result)) (cur : loop_cursor),
      (while_running c cur (before.map (fun p => undisturbed p.1 p.2) ++ [last])).exit
          = loop_exit.running_false
        ∧ (while_running c cur
            (before.map (fun p => undisturbed p.1 p.2) ++ [last])).ticks.length
            = before.length
        ∧ ∀ t ∈ (while_running c cur
            (before.map (fun p => undisturbed p.1 p.2) ++ [last])).ticks, t.stop = false := by
  intro before
  induction before with
  | nil => intro cur; simp [while_running, hlast]
  | cons p before ih =>
    intro cur
    have hstop := loop_body_stop_disabled c cur (undisturbed p.1 p.2) hnodes htime
    have hnull := loop_body_null_session c cur (undisturbed p.1 p.2) hs
    obtain ⟨h1, h2, h3⟩ := ih (loop_body c cur (undisturbed p.1 p.2)).1
    simp only [List.map_cons, List.cons_append]
    rw [while_running_cons_continue c cur _ _ rfl hnull hstop]
    refine ⟨h1, by simp [h2], ?_⟩
    intro t ht
    simp only [List.mem_cons] at ht
    rcases ht with ht | ht
    · rw [ht]; exact hstop
    · exact h3 t ht

theorem main_default_args (stoi : String → Option Int) (sched : schedule) :
    main stoi ctor_always_ok sched []
      = { status := some 0
          client_constructed := true
          events := (dht_client_new "0.0.0.0" 6881 false 15).2
            ++ [event.install_sigint_handler,
              event.cout (message.starting "a9ae5333b345d9c66ed09e2f72eef639dec5ad1d"),
              event.cout message.press_ctrl_c]
            ++ (start ctor_always_ok (dht_client_new "0.0.0.0" 6881 false 15).1
                "a9ae5333b345d9c66ed09e2f72eef639dec5ad1d" 1 30 0 0 "0.0.0.0").events
            ++ [event.session_abort, event.wait_main_loop]
          stop_called := true
          loop := some (main_loop (started_client 1 30 0 0) sched.start_time
            (schedule_inputs sched)) } := by
  rfl

theorem main_non_hex_infohash (stoi : String → Option Int) (sched : schedule) :
    main stoi ctor_always_ok sched ["--btih", non_hex_infohash]
      = { status := some 0
          client_constructed := true
          events := (dht_client_new "0.0.0.0" 6881 false 15).2
            ++ [event.install_sigint_handler,
              event.cout (message.starting non_hex_infohash),
              event.cout message.press_ctrl_c]
            ++ (start ctor_always_ok (dht_client_new "0.0.0.0" 6881 false 15).1
                non_hex_infohash 1 30 0 0 "0.0.0.0").events
            ++ [event.session_abort, event.wait_main_loop]
          stop_called := true
          loop := some (main_loop
            (start ctor_always_ok (dht_client_new "0.0.0.0" 6881 false 15).1
                non_hex_infohash 1 30 0 0 "0.0.0.0").client sched.start_time
            (schedule_inputs sched)) } := by
  rfl

theorem main_rejects_wrong_size (stoi : String → Option Int) (ctor : session_ctor)
    (sched : schedule) (args : List String) (o : options)
    (hparse : parse_args stoi args default_options = parse_outcome.parsed o)
    (hsize : o.infohash.utf8ByteSize ≠ 40) :
    main stoi ctor sched args
      = { status := some 1
          client_constructed := false
          events := [event.cerr message.infohash_must_be_40_hex]
          stop_called := false
          loop := none } := by
  simp [main, hparse, hsize]

/-! ### Claims on the estimator -/

/-- C1, as stated, fails: at `elapsed = 2^30 + 20` (a non-negative `int`) and no queries the
doubling `(elapsed - 20) * 2` leaves the range of `int`; with the wrap-around of 32-bit
arithmetic the code returns `-2147483588` where the formula gives `150`. -/
theorem estimate_formula_fails_on_overflow :
    (0 : Int) ≤ 1073741844 ∧ (1073741844 : Int) ≤ INT_MAX
      ∧ estimate_node_count 1073741844 0 = -2147483588
      ∧ spec_estimate 1073741844 0 = 150 := by
  decide

/-- C1 (amended): for `0 ≤ elapsed ≤ 1073741793` and `0 ≤ queryCount ≤ 1073741823`, the
range in which no `int` operation overflows, `estimate_node_count` equals
`min(base + min(2*queryCount, 40), 150)` with the piecewise base of the specification; and
`estimate(0,0) = estimate(1,0) = 0`, `estimate(4,0) = 14`, `estimate(5,0) = 15`,
`estimate(19,0) = 57`, `estimate(20,0) = 60`. -/
theorem estimate_node_count_eq_spec (e q : Int) (he0 : 0 ≤ e) (he : e ≤ ELAPSED_SAFE_MAX)
    (hq0 : 0 ≤ q) (hq : q ≤ QUERY_SAFE_MAX) :
    estimate_node_count e q = spec_estimate e q
      ∧ estimate_node_count 0 0 = 0 ∧ estimate_node_count 1 0 = 0
      ∧ estimate_node_count 4 0 = 14 ∧ estimate_node_count 5 0 = 15
      ∧ estimate_node_count 19 0 = 57 ∧ estimate_node_count 20 0 = 60 :=
  ⟨estimate_eq_spec_of_safe he0 he hq0 hq, by decide, by decide, by decide, by decide,
    by decide, by decide⟩

/-- Witness of C1 (amended) at `elapsed = 25`, `queryCount = 3`, where both sides are 76. -/
theorem estimate_node_count_eq_spec_witness :
    (0 : Int) ≤ 25 ∧ (25 : Int) ≤ ELAPSED_SAFE_MAX ∧ (0 : Int) ≤ 3 ∧ (3 : Int) ≤ QUERY_SAFE_MAX
      ∧ estimate_node_count 25 3 = spec_estimate 25 3
      ∧ estimate_node_count 25 3 = 76 :=
  ⟨by decide, by decide, by decide, by decide,
    (estimate_node_count_eq_spec 25 3 (by decide) (by decide) (by decide) (by decide)).1,
    by decide⟩

/-- C2, as stated, fails in both arguments: the estimate drops from 150 to a negative value
when `elapsed` grows from `1073741793` to `2^30 + 20`, and from 0 to `-2^31` when
`queryCount` grows from 0 to `2^30`. -/
theorem estimate_not_monotone_on_overflow :
    (1073741793 : Int) ≤ 1073741844 ∧ (1073741844 : Int) ≤ INT_MAX
      ∧ ¬ (estimate_node_count 1073741793 0 ≤ estimate_node_count 1073741844 0)
      ∧ (0 : Int) ≤ 1073741824 ∧ (1073741824 : Int) ≤ INT_MAX
      ∧ ¬ (estimate_node_count 0 0 ≤ estimate_node_count 0 1073741824) := by
  decide

/-- C2 (amended): on `0 ≤ elapsed ≤ 1073741793` and `0 ≤ queryCount ≤ 1073741823`
`estimate_node_count` is non-decreasing in `elapsed` at fixed `queryCount`, non-decreasing in
`queryCount` at fixed `elapsed`, and hence in both together; the breakpoints 2, 5 and 20 lie
in that range. -/
theorem estimate_node_count_monotone (e1 e2 q1 q2 : Int) (he0 : 0 ≤ e1) (he : e1 ≤ e2)
    (he2 : e2 ≤ ELAPSED_SAFE_MAX) (hq0 : 0 ≤ q1) (hq : q1 ≤ q2) (hq2 : q2 ≤ QUERY_SAFE_MAX) :
    estimate_node_count e1 q1 ≤ estimate_node_count e2 q1
      ∧ estimate_node_count e1 q1 ≤ estimate_node_count e1 q2
      ∧ estimate_node_count e1 q1 ≤ estimate_node_count e2 q2 := by
  have h11 := estimate_eq_spec_of_safe he0 (le_trans he he2) hq0 (le_trans hq hq2)
  have h21 := estimate_eq_spec_of_safe (le_trans he0 he) he2 hq0 (le_trans hq hq2)
  have h12 := estimate_eq_spec_of_safe he0 (le_trans he he2) (le_trans hq0 hq) hq2
  have h22 := estimate_eq_spec_of_safe (le_trans he0 he) he2 (le_trans hq0 hq) hq2
  rw [h11, h21, h12, h22]
  exact ⟨spec_estimate_mono_elapsed q1 he, spec_estimate_mono_query e1 hq,
    le_trans (spec_estimate_mono_elapsed q1 he) (spec_estimate_mono_query e2 hq)⟩

/-- Witness of C2 (amended) across the breakpoints: from `elapsed = 1` to `elapsed = 20`
and from 0 to 7 queries. -/
theorem estimate_node_count_monotone_witness :
    estimate_node_count 1 0 ≤ estimate_node_count 20 0
      ∧ estimate_node_count 1 0 ≤ estimate_node_count 1 7
      ∧ estimate_node_count 1 0 ≤ estimate_node_count 20 7 :=
  estimate_node_count_monotone 1 20 0 7 (by decide) (by decide) (by decide) (by decide)
    (by decide) (by decide)

/-- C3, as stated, fails: `elapsed = 2^30 + 20` and `queryCount = 0` are non-negative `int`
values and the result is negative. -/
theorem estimate_negative_on_overflow :
    (0 : Int) ≤ 1073741844 ∧ (1073741844 : Int) ≤ INT_MAX
      ∧ estimate_node_count 1073741844 0 < 0 := by
  decide

/-- C3 (amended): the result of `estimate_node_count` is at most 150 for all `int` arguments,
and it is at least 0 for `0 ≤ elapsed ≤ 1073741793` and `0 ≤ queryCount ≤ 1073741823`. -/
theorem estimate_node_count_bounds (e q : Int) (he0 : 0 ≤ e) (he : e ≤ ELAPSED_SAFE_MAX)
    (hq0 : 0 ≤ q) (hq : q ≤ QUERY_SAFE_MAX) :
    0 ≤ estimate_node_count e q ∧ estimate_node_count e q ≤ 150
      ∧ ∀ e2 q2 : Int, estimate_node_count e2 q2 ≤ 150 := by
  refine ⟨?_, estimate_le_150 e q, estimate_le_150⟩
  rw [estimate_eq_spec_of_safe he0 he hq0 hq]
  exact spec_estimate_nonneg e hq0

/-- Witness of C3 (amended) at the largest arguments of the range. -/
theorem estimate_node_count_bounds_witness :
    0 ≤ estimate_node_count 1073741793 1073741823
      ∧ estimate_node_count 1073741793 1073741823 ≤ 150 :=
  ⟨(estimate_node_count_bounds 1073741793 1073741823 (by decide) (by decide) (by decide)
      (by decide)).1,
    (estimate_node_count_bounds 1073741793 1073741823 (by decide) (by decide) (by decide)
      (by decide)).2.1⟩


/-! ### Claims on the bootstrap selector -/

/-- C4: for every node list and every position `k` in it such that the session constructor
throws for the nodes before position `k` and succeeds for the node at position `k`,
`initialize_session_from_bootstrap_nodes` returns `true`, writes exactly `k` error lines,
which are the bootstrap-failure lines of the first `k` nodes in list order, leaves the client
holding the session constructed against the node at position `k` (and otherwise unchanged),
and calls the constructor for the first `k + 1` nodes only. -/
theorem bootstrap_first_success_wins (ctor : session_ctor) (c : dht_client)
    (nodes : List (String × Int)) (bind_addr : String) (port : Int) (k : Nat)
    (node_k : String × Int) (hk : nodes[k]? = some node_k)
    (hfail : ∀ i node, i < k → nodes[i]? = some node →
      ∃ what, ctor i (node_endpoint node) ⟨bind_addr, port⟩ = Except.error what)
    (hok : ctor k (node_endpoint node_k) ⟨bind_addr, port⟩ = Except.ok ()) :
    (initialize_session_from_bootstrap_nodes ctor c nodes bind_addr port).ok = true
      ∧ (error_entries
          (initialize_session_from_bootstrap_nodes ctor c nodes bind_addr port).events).length
          = k
      ∧ (error_entries
          (initialize_session_from_bootstrap_nodes ctor c nodes bind_addr port).events).map
            failed_node
          = (nodes.take k).map (fun nd => some (node_endpoint nd))
      ∧ (initialize_session_from_bootstrap_nodes ctor c nodes bind_addr port).client
          = { c with m_session := some ⟨node_endpoint node_k, ⟨bind_addr, port⟩⟩ }
      ∧ construction_attempts
          (initialize_session_from_bootstrap_nodes ctor c nodes bind_addr port).events
          = (nodes.take (k + 1)).map node_endpoint := by
  have hfail0 : ∀ i node, i < k → nodes[i]? = some node →
      ∃ what, ctor (0 + i) (node_endpoint node) ⟨bind_addr, port⟩ = Except.error what := by
    intro i node hi hn
    simpa using hfail i node hi hn
  have hok0 : ctor (0 + k) (node_endpoint node_k) ⟨bind_addr, port⟩ = Except.ok () := by
    simpa using hok
  obtain ⟨h1, h2, h3, h4⟩ :=
    bootstrap_loop_first_success ctor bind_addr port c nodes 0 k node_k hk hfail0 hok0
  have hlen : k < nodes.length := by
    rcases Nat.lt_or_ge k nodes.length with h | h
    · exact h
    · rw [List.getElem?_eq_none h] at hk; cases hk
  have h3l := congrArg List.length h3
  simp only [List.length_map, List.length_take] at h3l
  have hmin : min k nodes.length = k := Nat.min_eq_left (Nat.le_of_lt hlen)
  refine ⟨?_, ?_, ?_, ?_, ?_⟩
  · simpa [initialize_session_from_bootstrap_nodes] using h1
  · have hev : error_entries
        (initialize_session_from_bootstrap_nodes ctor c nodes bind_addr port).events
        = error_entries (bootstrap_loop ctor bind_addr port 0 nodes c).events := by
      simp [initialize_session_from_bootstrap_nodes, log_info, error_entries_append,
        error_entries]
    rw [hev]
    omega
  · simpa [initialize_session_from_bootstrap_nodes, log_info, error_entries_append,
      error_entries] using h3
  · simpa [initialize_session_from_bootstrap_nodes] using h2
  · simpa [initialize_session_from_bootstrap_nodes, log_info, construction_attempts_append,
      construction_attempts] using h4

/-- Witness of C4 on the node list of `start` with a constructor that throws on its first
call and succeeds on the second: one failure line, two constructor calls. -/
theorem bootstrap_first_success_wins_witness :
    (initialize_session_from_bootstrap_nodes
        (fun n _ _ => if n = 0 then Except.error "no response" else Except.ok ())
        (dht_client_new "0.0.0.0" 6881 false 15).1 bootstrap_nodes "0.0.0.0" 6881).ok = true
      ∧ (error_entries
          (initialize_session_from_bootstrap_nodes
            (fun n _ _ => if n = 0 then Except.error "no response" else Except.ok ())
            (dht_client_new "0.0.0.0" 6881 false 15).1 bootstrap_nodes "0.0.0.0"
            6881).events).length = 1
      ∧ construction_attempts
          (initialize_session_from_bootstrap_nodes
            (fun n _ _ => if n = 0 then Except.error "no response" else Except.ok ())
            (dht_client_new "0.0.0.0" 6881 false 15).1 bootstrap_nodes "0.0.0.0" 6881).events
          = [⟨"router.bittorrent.com", 6881⟩, ⟨"router.utorrent.com", 6881⟩] := by
  have h := bootstrap_first_success_wins
    (fun n _ _ => if n = 0 then Except.error "no response" else Except.ok ())
    (dht_client_new "0.0.0.0" 6881 false 15).1 bootstrap_nodes "0.0.0.0" 6881 1
    ("router.utorrent.com", 6881) (by decide)
    (by
      intro i node hi _
      have hi0 : i = 0 := by omega
      subst hi0
      exact ⟨"no response", rfl⟩)
    (by rfl)
  exact ⟨h.1, h.2.1, h.2.2.2.2⟩

/-- C5: when the session constructor throws for every node of a list (the empty list
included), `initialize_session_from_bootstrap_nodes` on a client without a session and
without a launched loop returns `false` after calling the constructor once for every node
in list order; the client holds no session afterwards and is unchanged; and for the node
list of `start`, `start` throws "Failed to initialize session from bootstrap nodes" without
launching the control loop, leaving no session and no loop. -/
theorem bootstrap_all_fail (ctor : session_ctor) (c : dht_client)
    (nodes : List (String × Int)) (bind_addr : String)
    (hsession : c.m_session = none) (hloop : c.m_main_loop = false)
    (hfail : ∀ i node, nodes[i]? = some node →
      ∃ what, ctor i (node_endpoint node) ⟨bind_addr, c.m_port⟩ = Except.error what) :
    (initialize_session_from_bootstrap_nodes ctor c nodes bind_addr c.m_port).ok = false
      ∧ construction_attempts
          (initialize_session_from_bootstrap_nodes ctor c nodes bind_addr c.m_port).events
          = nodes.map node_endpoint
      ∧ (initialize_session_from_bootstrap_nodes ctor c nodes bind_addr c.m_port).client.m_session
          = none
      ∧ (initialize_session_from_bootstrap_nodes ctor c nodes bind_addr c.m_port).client = c
      ∧ (nodes = bootstrap_nodes →
          ∀ (infohash_hex : String) (sleep_print sleep_query stop_nodes stop_time : Int),
            (start ctor c infohash_hex sleep_print sleep_query stop_nodes stop_time
                bind_addr).thrown
              = some "Failed to initialize session from bootstrap nodes"
            ∧ (start ctor c infohash_hex sleep_print sleep_query stop_nodes stop_time
                bind_addr).client.m_session = none
            ∧ (start ctor c infohash_hex sleep_print sleep_query stop_nodes stop_time
                bind_addr).client.m_main_loop = false
            ∧ event.launch_main_loop ∉
                (start ctor c infohash_hex sleep_print sleep_query stop_nodes stop_time
                  bind_addr).events
            ∧ construction_attempts
                (start ctor c infohash_hex sleep_print sleep_query stop_nodes stop_time
                  bind_addr).events = bootstrap_nodes.map node_endpoint) := by
  have hfail0 : ∀ i node, nodes[i]? = some node →
      ∃ what, ctor (0 + i) (node_endpoint node) ⟨bind_addr, c.m_port⟩ = Except.error what := by
    intro i node hn
    simpa using hfail i node hn
  obtain ⟨h1, h2, _, h4, _⟩ :=
    bootstrap_loop_all_fail ctor bind_addr c.m_port c nodes 0 hfail0
  refine ⟨?_, ?_, ?_, ?_, ?_⟩
  · simpa [initialize_session_from_bootstrap_nodes] using h1
  · simpa [initialize_session_from_bootstrap_nodes, log_info, construction_attempts_append,
      construction_attempts] using h4
  · simp [initialize_session_from_bootstrap_nodes, h2, hsession]
  · simpa [initialize_session_from_bootstrap_nodes] using h2
  · intro hnodes infohash_hex sleep_print sleep_query stop_nodes stop_time
    subst hnodes
    obtain ⟨g1, g2, _, g4, g5⟩ :=
      bootstrap_loop_all_fail ctor bind_addr c.m_port
        { c with
          m_infohash_hex := infohash_hex
          m_sleep_print := sleep_print
          m_sleep_query := sleep_query
          m_stop_nodes := stop_nodes
          m_stop_time := stop_time
          m_running := true } bootstrap_nodes 0 hfail0
    simp only [start, initialize_session_from_bootstrap_nodes, g1, g2, if_true]
    refine ⟨trivial, hsession, hloop, ?_, ?_⟩
    · simp [log_info, g5]
    · simp [log_info, construction_attempts_append, construction_attempts, g4]

/-- Witness of C5: the freshly constructed client against a constructor that always
throws. -/
theorem bootstrap_all_fail_witness :
    (initialize_session_from_bootstrap_nodes ctor_always_fails
        (dht_client_new "0.0.0.0" 6881 false 15).1 bootstrap_nodes "0.0.0.0" 6881).ok = false
      ∧ (start ctor_always_fails (dht_client_new "0.0.0.0" 6881 false 15).1
          "a9ae5333b345d9c66ed09e2f72eef639dec5ad1d" 1 30 0 0 "0.0.0.0").thrown
          = some "Failed to initialize session from bootstrap nodes"
      ∧ (start ctor_always_fails (dht_client_new "0.0.0.0" 6881 false 15).1
          "a9ae5333b345d9c66ed09e2f72eef639dec5ad1d" 1 30 0 0 "0.0.0.0").client.m_main_loop
          = false := by
  have h := bootstrap_all_fail ctor_always_fails (dht_client_new "0.0.0.0" 6881 false 15).1
    bootstrap_nodes "0.0.0.0" rfl rfl (fun _ _ _ => ⟨"timed out", rfl⟩)
  have h2 := h.2.2.2.2 rfl "a9ae5333b345d9c66ed09e2f72eef639dec5ad1d" 1 30 0 0
  exact ⟨h.1, h2.1, h2.2.2.1⟩


/-! ### Claims on the control loop -/

/-- C6: with a session, the node-count stop disabled (`m_stop_nodes = 0`),
`m_stop_time = N > 0` and no external stop request, as long as every tick has fewer than `N`
elapsed whole seconds the loop does not stop (it performs every tick and is still running);
at the first tick whose elapsed whole seconds are at least `N` it leaves through the stop
condition, that tick is the last one performed, and whatever readings would follow play no
part in the run. -/
theorem stop_at_elapsed_seconds (c : dht_client) (s : session) (start_time : Int)
    (pre : List tick_input) (hs : c.m_session = some s)
    (hnodes : c.m_stop_nodes = 0) (hN : 0 < c.m_stop_time)
    (hrun : ∀ inp ∈ pre, inp.running = true)
    (hpre : ∀ inp ∈ pre, elapsed_at start_time inp < c.m_stop_time) :
    ((main_loop c start_time pre).exit = loop_exit.still_running
        ∧ (main_loop c start_time pre).ticks.length = pre.length
        ∧ ∀ t ∈ (main_loop c start_time pre).ticks, t.stop = false)
      ∧ ∀ (inp : tick_input) (post : List tick_input), inp.running = true →
          c.m_stop_time ≤ elapsed_at start_time inp →
          (main_loop c start_time (pre ++ inp :: post)).exit = loop_exit.stop_condition
            ∧ (main_loop c start_time (pre ++ inp :: post)).ticks.length = pre.length + 1
            ∧ (main_loop c start_time (pre ++ inp :: post)).ticks.map (fun t => t.current_time)
                = (pre ++ [inp]).map (fun x => x.now)
            ∧ (main_loop c start_time (pre ++ inp :: post)).ticks.map (fun t => t.stop)
                = pre.map (fun _ => false) ++ [true]
            ∧ main_loop c start_time (pre ++ inp :: post)
                = main_loop c start_time (pre ++ [inp]) := by
  obtain ⟨h1, h2, h3, h4, h5⟩ :=
    while_running_before_stop_time c hs hnodes hN start_time pre
      { start_time := start_time, last_node_count := 0, last_print_time := start_time,
        last_query_time := start_time, query_count := 0 } rfl hrun hpre
  refine ⟨⟨h1, h2, fun t ht => (h4 t ht).1⟩, ?_⟩
  intro inp post hrun_inp hge
  have hstops : (main_loop c start_time pre).ticks.map (fun t => t.stop)
      = pre.map (fun _ => false) := by
    apply List.ext_getElem
    · simp [main_loop, h2]
    · intro n hn1 hn2
      simp only [List.getElem_map]
      exact (h4 _ (List.getElem_mem _)).1
  have key : ∀ rest : List tick_input,
      main_loop c start_time (pre ++ inp :: rest)
        = { ticks := (main_loop c start_time pre).ticks
              ++ [(loop_body c (main_loop c start_time pre).cursor inp).2]
            exit := loop_exit.stop_condition
            cursor := (loop_body c (main_loop c start_time pre).cursor inp).1 } := by
    intro rest
    have hnull := loop_body_null_session c (main_loop c start_time pre).cursor inp hs
    have hstop : (loop_body c (main_loop c start_time pre).cursor inp).2.stop = true := by
      rw [loop_body_stop_time_only c _ inp hnodes hN]
      simp only [main_loop, h5]
      simpa [elapsed_at] using hge
    simp only [main_loop] at hnull hstop ⊢
    rw [while_running_append c pre _ (inp :: rest) h1,
      while_running_cons_stop c _ inp rest hrun_inp hnull hstop]
  rw [key post, key []]
  refine ⟨rfl, ?_, ?_, ?_, rfl⟩
  · simp [main_loop, h2]
  · simp only [main_loop, List.map_append, h3, List.map_cons, List.map_nil,
      loop_body_current_time]
  · have hstop : (loop_body c (main_loop c start_time pre).cursor inp).2.stop = true := by
      rw [loop_body_stop_time_only c _ inp hnodes hN]
      simp only [main_loop, h5]
      simpa [elapsed_at] using hge
    simp only [List.map_append, hstops, List.map_cons, List.map_nil, hstop]


/-- C7: in every tick of the control loop the status line is printed exactly when the tick's
node count differs from `last_node_count` or the whole seconds since `last_print_time` are
at least `m_sleep_print`; a print sets `last_node_count` and `last_print_time` to the tick's
node count and time, and a tick without a print leaves them alone; a changed node count
prints even when less than the interval has passed. Consequently, with a print interval of
at least one second (1 in the specification) and a non-decreasing clock, two prints of a run
between which the node count stays constant are at least the interval apart. -/
theorem status_print_rule (c : dht_client) (cur : loop_cursor) (inp : tick_input) :
    (loop_body c cur inp).2.node_count
        = estimate_node_count (wrap32 (seconds_between inp.now cur.start_time)) cur.query_count
      ∧ ((loop_body c cur inp).2.should_print = true
          ↔ ((loop_body c cur inp).2.node_count ≠ cur.last_node_count
              ∨ c.m_sleep_print ≤ seconds_between inp.now cur.last_print_time))
      ∧ (event.log_info (message.connected_to (loop_body c cur inp).2.node_count
            (loop_body c cur inp).2.elapsed) ∈ (loop_body c cur inp).2.events
          ↔ (loop_body c cur inp).2.should_print = true)
      ∧ ((loop_body c cur inp).2.should_print = true →
          (loop_body c cur inp).1.last_node_count = (loop_body c cur inp).2.node_count
            ∧ (loop_body c cur inp).1.last_print_time = inp.now)
      ∧ ((loop_body c cur inp).2.should_print = false →
          (loop_body c cur inp).1.last_node_count = cur.last_node_count
            ∧ (loop_body c cur inp).1.last_print_time = cur.last_print_time)
      ∧ ((loop_body c cur inp).2.node_count ≠ cur.last_node_count →
          seconds_between inp.now cur.last_print_time < c.m_sleep_print →
          (loop_body c cur inp).2.should_print = true)
      ∧ (1 ≤ c.m_sleep_print →
          ∀ (start_time : Int) (inputs : List tick_input) (A : List tick_record)
            (ti : tick_record) (B : List tick_record) (tj : tick_record)
            (C : List tick_record),
            List.Pairwise (fun x y : tick_input => x.now ≤ y.now) inputs →
            (main_loop c start_time inputs).ticks = A ++ ti :: (B ++ tj :: C) →
            ti.should_print = true → tj.should_print = true →
            (∀ t ∈ B, t.node_count = ti.node_count) → tj.node_count = ti.node_count →
            ti.current_time + c.m_sleep_print * clock_period ≤ tj.current_time) := by
  refine ⟨rfl, loop_body_should_print c cur inp, status_line_iff c cur inp,
    (loop_body_last_print c cur inp).1, (loop_body_last_print c cur inp).2, ?_, ?_⟩
  · intro h _
    exact (loop_body_should_print c cur inp).2 (Or.inl h)
  · intro hP start_time inputs A ti B tj C hmono hticks
    exact prints_spaced_in_constant_stretch c hP A _ inputs ti B tj C hmono hticks


/-- Witness of C6 with `N = 5`: ticks at 0 s, 2.5 s and 4.9 s do not stop the loop, the tick
at 5 s does, and the reading at 5.1 s is never used. -/
theorem stop_at_elapsed_seconds_witness :
    (main_loop (started_client 1 30 0 5) 0 [at_ms 0, at_ms 2500, at_ms 4900]).exit
        = loop_exit.still_running
      ∧ (main_loop (started_client 1 30 0 5) 0
          ([at_ms 0, at_ms 2500, at_ms 4900] ++ at_ms 5000 :: [at_ms 5100])).exit
          = loop_exit.stop_condition
      ∧ (main_loop (started_client 1 30 0 5) 0
          ([at_ms 0, at_ms 2500, at_ms 4900] ++ at_ms 5000 :: [at_ms 5100])).ticks.length
          = 4 := by
  have h := stop_at_elapsed_seconds (started_client 1 30 0 5) first_node_session 0
    [at_ms 0, at_ms 2500, at_ms 4900] (by rfl) (by rfl) (by decide) (by decide) (by decide)
  have h2 := h.2 (at_ms 5000) [at_ms 5100] (by rfl) (by decide)
  exact ⟨h.1.1, h2.1, h2.2.1⟩

/-- Witness of C7 with a print interval of 1 s. A tick at 2 s whose cursor printed node
count 0 at 1.5 s prints at once, the count now being 4. In the run with ticks at 65 s, 65.5 s
and 66 s the node count is 150 throughout, the first and the third tick print, and they are
one second apart. -/
theorem status_print_rule_witness :
    ((loop_body (started_client 1 30 0 0)
        { start_time := 0, last_node_count := 0, last_print_time := 1500000000,
          last_query_time := 0, query_count := 0 } (at_ms 2000)).2.should_print = true)
      ∧ ((main_loop (started_client 1 30 0 0) 0
            [at_ms 65000, at_ms 65500, at_ms 66000]).ticks.map
              (fun t => (t.should_print, t.node_count))
          = [(true, 150), (false, 150), (true, 150)])
      ∧ (at_ms 65000).now + (started_client 1 30 0 0).m_sleep_print * clock_period
          ≤ (at_ms 66000).now := by
  have h := status_print_rule (started_client 1 30 0 0)
    { start_time := 0, last_node_count := 0, last_print_time := 1500000000,
      last_query_time := 0, query_count := 0 } (at_ms 2000)
  have hgap := h.2.2.2.2.2.2 (by decide) 0 [at_ms 65000, at_ms 65500, at_ms 66000]
    [] _ [_] _ [] (by decide) rfl (by decide) (by decide) (by decide) (by decide)
  exact ⟨h.2.2.2.2.2.1 (by decide) (by decide), by decide, hgap⟩

/-- C8, as stated, fails: in the scenario (`stopAtNodeCount = 60`, no time stop, print
interval 1, query interval 30) the clock readings 1 s and 35 s are non-decreasing, the tick
at 35 s is the first with at least 20 elapsed seconds, and in that tick the query is
dispatched before the stop condition is evaluated, so the query count is 1 when the loop
stops. -/
theorem query_dispatched_in_stopping_tick :
    (started_client 1 30 60 0).m_stop_nodes = 60
      ∧ (started_client 1 30 60 0).m_stop_time = 0
      ∧ (started_client 1 30 60 0).m_sleep_print = 1
      ∧ (started_client 1 30 60 0).m_sleep_query = 30
      ∧ List.Pairwise (fun x y : Int => x ≤ y) [0, (at_ms 1000).now, (at_ms 35000).now]
      ∧ (main_loop (started_client 1 30 60 0) 0 [at_ms 1000, at_ms 35000]).exit
          = loop_exit.stop_condition
      ∧ (main_loop (started_client 1 30 60 0) 0 [at_ms 1000, at_ms 35000]).ticks.map
            (fun t => (t.elapsed, t.queried, t.stop))
          = [(1, false, false), (35, true, true)]
      ∧ (main_loop (started_client 1 30 60 0) 0 [at_ms 1000, at_ms 35000]).cursor.query_count
          = 1 := by
  decide

/-- C8 (amended): with a session, `stopAtNodeCount = 60`, no time stop, a query interval of
30 s, no external stop and a non-decreasing clock, let the first tick with at least 20
elapsed seconds have at most 1073741793 elapsed seconds. Then the loop does not stop and
dispatches no query at any earlier tick (as long as no such tick comes it keeps running with
query count 0), it stops at that tick, which is the first tick whose node count reaches 60
and the last tick performed, the node counts of the status lines are non-decreasing, and
that last tick dispatches a query exactly when its elapsed seconds are at least 30: the
query count at the stop is 0 if they are below 30 and 1 otherwise. -/
theorem stop_at_sixty_nodes (c : dht_client) (s : session) (start_time : Int)
    (pre : List tick_input) (hs : c.m_session = some s)
    (h60 : c.m_stop_nodes = 60) (h0 : c.m_stop_time = 0) (hq : c.m_sleep_query = 30)
    (hrun : ∀ x ∈ pre, x.running = true)
    (hnow : ∀ x ∈ pre, start_time ≤ x.now)
    (hpre : ∀ x ∈ pre, elapsed_at start_time x < 20) :
    ((main_loop c start_time pre).exit = loop_exit.still_running
        ∧ (main_loop c start_time pre).ticks.length = pre.length
        ∧ (∀ t ∈ (main_loop c start_time pre).ticks,
            t.stop = false ∧ t.queried = false ∧ t.node_count < 60)
        ∧ (main_loop c start_time pre).cursor.query_count = 0)
      ∧ ∀ (inp : tick_input) (post : List tick_input), inp.running = true →
          List.Pairwise (fun x y : Int => x ≤ y)
            (start_time :: (pre ++ [inp]).map (fun x => x.now)) →
          20 ≤ elapsed_at start_time inp → elapsed_at start_time inp ≤ ELAPSED_SAFE_MAX →
          (main_loop c start_time (pre ++ inp :: post)).exit = loop_exit.stop_condition
            ∧ (main_loop c start_time (pre ++ inp :: post)).ticks.map (fun t => t.current_time)
                = (pre ++ [inp]).map (fun x => x.now)
            ∧ (main_loop c start_time (pre ++ inp :: post)).ticks.map (fun t => t.stop)
                = pre.map (fun _ => false) ++ [true]
            ∧ (main_loop c start_time (pre ++ inp :: post)).ticks.map
                  (fun t => decide (60 ≤ t.node_count))
                = pre.map (fun _ => false) ++ [true]
            ∧ (main_loop c start_time (pre ++ inp :: post)).ticks.map (fun t => t.queried)
                = pre.map (fun _ => false) ++ [decide (30 ≤ elapsed_at start_time inp)]
            ∧ (main_loop c start_time (pre ++ inp :: post)).cursor.query_count
                = (if 30 ≤ elapsed_at start_time inp then 1 else 0)
            ∧ List.Pairwise (fun x y : Int => x ≤ y)
                (printed_counts (main_loop c start_time (pre ++ inp :: post)).ticks)
            ∧ main_loop c start_time (pre ++ inp :: post)
                = main_loop c start_time (pre ++ [inp]) := by
  obtain ⟨k1, k2, k3, k4, k5, k6, k7, k8⟩ :=
    while_running_before_sixty c hs h60 h0 hq start_time pre
      { start_time := start_time, last_node_count := 0, last_print_time := start_time,
        last_query_time := start_time, query_count := 0 } rfl rfl rfl hrun hnow hpre
  refine ⟨⟨k1, k2, fun t ht => ⟨(k5 t ht).1, (k5 t ht).2.1, (k5 t ht).2.2.1⟩, k8⟩, ?_⟩
  intro inp post hrun_inp hmono hge hmax
  rw [List.pairwise_cons] at hmono
  obtain ⟨hstart, hsorted⟩ := hmono
  have hnow_inp : start_time ≤ inp.now := hstart inp.now (by simp)
  obtain ⟨f1, f2, f3⟩ := loop_body_no_query_yet c (main_loop c start_time pre).cursor inp
    start_time h60 h0 hq k6 k7 k8 hnow_inp hmax
  have hge60 := estimate_zero_queries_ge_60 hge hmax
  have hnull := loop_body_null_session c (main_loop c start_time pre).cursor inp hs
  have hstop : (loop_body c (main_loop c start_time pre).cursor inp).2.stop = true := by
    rw [f3]; simpa using hge60
  have key : ∀ rest : List tick_input,
      main_loop c start_time (pre ++ inp :: rest)
        = { ticks := (main_loop c start_time pre).ticks
              ++ [(loop_body c (main_loop c start_time pre).cursor inp).2]
            exit := loop_exit.stop_condition
            cursor := (loop_body c (main_loop c start_time pre).cursor inp).1 } := by
    intro rest
    simp only [main_loop] at hnull hstop ⊢
    rw [while_running_append c pre _ (inp :: rest) k1,
      while_running_cons_stop c _ inp rest hrun_inp hnull hstop]
  have hconst : ∀ (f : tick_record → Bool), (∀ t ∈ (main_loop c start_time pre).ticks,
      f t = false) → (main_loop c start_time pre).ticks.map f = pre.map (fun _ => false) := by
    intro f hf
    apply List.ext_getElem
    · simp [main_loop, k2]
    · intro n hn1 hn2
      simp only [List.getElem_map]
      exact hf _ (List.getElem_mem _)
  rw [key post, key []]
  refine ⟨rfl, ?_, ?_, ?_, ?_, ?_, ?_, rfl⟩
  · simp only [main_loop, List.map_append, k3, List.map_cons, List.map_nil,
      loop_body_current_time]
  · simp only [List.map_append, List.map_cons, List.map_nil, hstop,
      hconst (fun t => t.stop) (fun t ht => (k5 t ht).1)]
  · have h60t : decide (60 ≤ (loop_body c (main_loop c start_time pre).cursor inp).2.node_count)
        = true := by
      rw [f1]; simpa using hge60
    simp only [List.map_append, List.map_cons, List.map_nil, h60t]
    rw [hconst (fun t => decide (60 ≤ t.node_count))
      (fun t ht => by have := (k5 t ht).2.2.1; simp only [decide_eq_false_iff_not]; omega)]
  · simp only [List.map_append, List.map_cons, List.map_nil, f2,
      hconst (fun t => t.queried) (fun t ht => (k5 t ht).2.1)]
  · have hc := loop_body_query_cursor c (main_loop c start_time pre).cursor inp
    have k8f : (main_loop c start_time pre).cursor.query_count = 0 := k8
    rw [f2, k8f] at hc
    by_cases h30 : 30 ≤ elapsed_at start_time inp
    · rw [if_pos h30, (hc.1 (by simpa using h30)).1]
      decide
    · rw [if_neg h30, (hc.2 (by simpa using h30)).1]
  · apply List.Pairwise.sublist (printed_counts_sublist _)
    simp only [List.map_append, List.map_cons, List.map_nil, f1]
    change List.Pairwise (fun x y : Int => x ≤ y)
      ((while_running c _ pre).ticks.map (fun t => t.node_count)
        ++ [estimate_node_count (elapsed_at start_time inp) 0])
    rw [k4]
    have hall : List.Pairwise (fun x y : tick_input => x.now ≤ y.now) (pre ++ [inp]) := by
      rw [List.pairwise_map] at hsorted
      exact hsorted
    have hest : List.Pairwise (fun x y : tick_input =>
        estimate_node_count (elapsed_at start_time x) 0
          ≤ estimate_node_count (elapsed_at start_time y) 0) (pre ++ [inp]) := by
      refine List.Pairwise.imp_of_mem ?_ hall
      intro x y hx hy hxy
      have hx0 : start_time ≤ x.now := hstart x.now (List.mem_map_of_mem _ hx)
      have hymax : elapsed_at start_time y ≤ ELAPSED_SAFE_MAX := by
        simp only [List.mem_append, List.mem_singleton] at hy
        rcases hy with hy | hy
        · have := hpre y hy
          unfold ELAPSED_SAFE_MAX
          omega
        · rw [hy]; exact hmax
      exact estimate_zero_queries_mono (seconds_between_nonneg hx0)
        (seconds_between_mono hx0 hxy) hymax
    have := (List.pairwise_map (f := fun x : tick_input =>
      estimate_node_count (elapsed_at start_time x) 0)
      (R := fun x y : Int => x ≤ y) (l := pre ++ [inp])).2 hest
    simpa using this


/-- Witness of C8 (amended): ticks at 0 s, 5 s and 19.9 s keep the loop running without a
query; the tick at 20 s stops it with node count 60 and query count 0, and the reading at
20.1 s is never used. -/
theorem stop_at_sixty_nodes_witness :
    (main_loop (started_client 1 30 60 0) 0 [at_ms 0, at_ms 5000, at_ms 19900]).exit
        = loop_exit.still_running
      ∧ (main_loop (started_client 1 30 60 0) 0
          ([at_ms 0, at_ms 5000, at_ms 19900] ++ at_ms 20000 :: [at_ms 20100])).exit
          = loop_exit.stop_condition
      ∧ (main_loop (started_client 1 30 60 0) 0
          ([at_ms 0, at_ms 5000, at_ms 19900] ++ at_ms 20000 :: [at_ms 20100])).cursor.query_count
          = 0
      ∧ printed_counts (main_loop (started_client 1 30 60 0) 0
          ([at_ms 0, at_ms 5000, at_ms 19900] ++ at_ms 20000 :: [at_ms 20100])).ticks
          = [15, 57, 60] := by
  have h := stop_at_sixty_nodes (started_client 1 30 60 0) first_node_session 0
    [at_ms 0, at_ms 5000, at_ms 19900] (by rfl) (by rfl) (by rfl) (by rfl) (by decide)
    (by decide) (by decide)
  have h2 := h.2 (at_ms 20000) [at_ms 20100] (by rfl) (by decide) (by decide) (by decide)
  exact ⟨h.1.1, h2.1, h2.2.2.2.2.2.1, by decide⟩

/-! ### Claims on the program entry point -/

/-- C9 fails on the code. With no arguments (no stop condition configured) and a bootstrap
that succeeds, `main` leaves the `try` block as soon as `start` has returned, the destructor
calls `stop`, which aborts the session and waits for the loop; under every schedule of the
loop thread the loop ends because it reads `m_running == false`, no tick having evaluated
the stop condition as true, and the exit status is 0. -/
theorem main_stops_client_right_after_start (stoi : String → Option Int) (sched : schedule) :
    (main stoi ctor_always_ok sched []).status = some 0
      ∧ (main stoi ctor_always_ok sched []).stop_called = true
      ∧ event.session_abort ∈ (main stoi ctor_always_ok sched []).events
      ∧ ∃ lr, (main stoi ctor_always_ok sched []).loop = some lr
          ∧ lr.exit = loop_exit.running_false
          ∧ lr.ticks.length = sched.before_stop.length
          ∧ ∀ t ∈ lr.ticks, t.stop = false := by
  rw [main_default_args]
  refine ⟨rfl, rfl, by simp, _, rfl, ?_⟩
  exact while_running_until_stop_called (started_client 1 30 0 0)
    (s := first_node_session) rfl rfl rfl
    { running := false, now := sched.start_time, run := run_result.RUN_ABORTED } rfl
    sched.before_stop _

/-- C10 fails on the code. The argument `--btih` followed by forty letters `z`, none of them
a hexadecimal digit, passes the check of `main`, which tests the size only: the client is
constructed, the session constructor is called for the first bootstrap node, and the exit
status is 0, not 1. -/
theorem non_hex_infohash_passes_validation (stoi : String → Option Int) (sched : schedule) :
    non_hex_infohash.length = 40
      ∧ spec_infohash_valid non_hex_infohash = false
      ∧ (main stoi ctor_always_ok sched ["--btih", non_hex_infohash]).status = some 0
      ∧ (main stoi ctor_always_ok sched ["--btih", non_hex_infohash]).client_constructed = true
      ∧ construction_attempts
          (main stoi ctor_always_ok sched ["--btih", non_hex_infohash]).events
          = [⟨"router.bittorrent.com", 6881⟩] := by
  rw [main_non_hex_infohash]
  exact ⟨by decide, by decide, rfl, rfl, by rfl⟩

end DhtClient
